import Mathlib

/-!
Shallow embedding of k6's init-context module loader (`js/initcontext.go`):
`InitContext`, `Require`, `requireModule`, `requireFile`, `Open`,
`NewInitContext`, `newBoundInitContext`.  The external collaborators —
the `loader` package (`Resolve`, `Dir`, `Load`), the `compiler` package
(`Transform`), the goja engine (`Compile`, `RunProgram`, global
bindings, object creation) and the builtin registry `modules.Index` —
are modelled at the interfaces the specification gives them.  Module
programs are a small statement language interpreted against the state,
so nested `require` calls made by executing module code are modelled
faithfully, including their mutations of the shared caches, the
working directory and the engine's global bindings.  Invocations of
the loader, the transformer and the compiler are counted per canonical
path so that "invoked exactly once" properties are statable.
-/

namespace K6Init

/-- Association-list lookup keyed by decidable equality (models Go map
indexing `m[k]`). -/
def lookupA {κ α : Type} [DecidableEq κ] : List (κ × α) → κ → Option α
  | [], _ => none
  | (k, v) :: r, key => if k = key then some v else lookupA r key

/-- Association-list insert/overwrite (models Go map assignment
`m[k] = v`). -/
def insertA {κ α : Type} [DecidableEq κ] (l : List (κ × α)) (k : κ) (v : α) :
    List (κ × α) :=
  (k, v) :: l

/-- Number of recorded invocations of an external collaborator for a
canonical path (instrumentation; not part of the Go state). -/
def countFor (l : List (String × Nat)) (k : String) : Nat :=
  (lookupA l k).getD 0

/-- Record one more invocation for a canonical path. -/
def bump (l : List (String × Nat)) (k : String) : List (String × Nat) :=
  insertA l k (countFor l k + 1)

/-- A goja runtime value, as far as the loader observes it: undefined,
numbers, strings, heap objects (identified by allocation id, so object
identity is id equality) and bound builtin modules. -/
inductive Value : Type where
  | undefined : Value
  | vint : Int → Value
  | vstr : String → Value
  | obj : Nat → Value
  | builtin : String → Value
deriving DecidableEq, Repr

/-- The error kinds the loader surfaces (spec §7). -/
inductive Err : Type where
  | unknownBuiltin : String → Err
  | resolutionError : String → Err
  | loadError : String → Err
  | compileError : String → Err
  | executionError : String → Err
deriving DecidableEq, Repr

/-- Error used when the interpretation fuel runs out; a model artifact
standing for a non-terminating / too-deep execution. -/
def fuelErr : Err := .executionError "out of fuel"

/-- `loader.SourceData`: the result of `loader.Load` — raw data plus the
canonical filename. -/
structure LoadedData : Type where
  Data : String
  Filename : String
deriving DecidableEq, Repr

/-- Expressions of the module-program language (the fragment of script
behaviour the claims exercise). -/
inductive Expr : Type where
  | lit : Int → Expr
  | globalE : String → Expr
  | field : Expr → String → Expr
  | req : String → Expr
  | add : Expr → Expr → Expr
deriving Repr

/-- Statements of the module-program language. `incField e f` models the
compound assignment `e.f += 1` (target evaluated once). -/
inductive Stmt : Type where
  | assignGlobal : String → Expr → Stmt
  | assignField : Expr → String → Expr → Stmt
  | incField : Expr → String → Stmt
  | exprS : Expr → Stmt
  | throwS : String → Stmt
deriving Repr

/-- A compiled goja program, modelled as its observable behaviour: the
statement list the engine will run. -/
abbrev Prog := List Stmt

/-- `programWithSource`: a compiled program together with its
transformed source (the repository's cache entry type). -/
structure ProgramWithSource : Type where
  pgm : Prog
  src : String
deriving Repr

/-- A filesystem: canonical path → raw content (models `afero.Fs` at
the granularity the loader uses it). -/
abbrev FsT := List (String × String)

/-- `InitContext` plus the observable state of its bound goja runtime:
working directory, program/file caches, the engine's global binding
table and object heap, and instrumentation counters recording, per
canonical path, how often the loader / transformer / compiler ran. -/
structure InitContext : Type where
  fs : Option FsT
  pwd : String
  programs : List (String × ProgramWithSource)
  files : List (String × String)
  console : Nat
  globals : List (String × Value)
  heap : List (Nat × List (String × Value))
  nextObj : Nat
  loadCount : List (String × Nat)
  transformCount : List (String × Nat)
  compileCount : List (String × Nat)
deriving Repr

/-- `runtime.Get(name)` — a missing binding reads as undefined. -/
def getGlobal (st : InitContext) (k : String) : Value :=
  (lookupA st.globals k).getD .undefined

/-- `runtime.Set(name, v)`. -/
def setGlobal (st : InitContext) (k : String) (v : Value) : InitContext :=
  { st with globals := insertA st.globals k v }

/-- `runtime.NewObject()` — allocates a fresh empty object and returns
its id. -/
def newObject (st : InitContext) : Nat × InitContext :=
  (st.nextObj,
   { st with heap := insertA st.heap st.nextObj [], nextObj := st.nextObj + 1 })

/-- `obj.Set(f, v)` on a heap object. -/
def setField (st : InitContext) (oid : Nat) (f : String) (v : Value) :
    InitContext :=
  { st with
    heap := insertA st.heap oid
      (insertA ((lookupA st.heap oid).getD []) f v) }

/-- `obj.Get(f)` on a heap object — a missing field reads as undefined. -/
def getField (st : InitContext) (oid : Nat) (f : String) : Value :=
  ((lookupA st.heap oid).bind (fun flds => lookupA flds f)).getD .undefined

/-- The external collaborators, at their spec interfaces (§6):
`resolve`/`dir` model `loader.Resolve`/`loader.Dir` (deterministic and
side-effect-free), `transform` models `compiler.Transform` (the source
map, discarded by the caller, is omitted), `compile` models
`goja.Compile` (strict mode, always true at the call site, is
omitted), and `builtins` models the static registry `modules.Index`. -/
structure Env : Type where
  resolve : String → String → String
  dir : String → String
  transform : String → String → Except Err String
  compile : String → String → Except Err Prog
  builtins : List String

/-- Modelled from the spec: `loader.Load` (not under `src/`), per the
Loader contract of §6 — resolve the specifier against the base
directory with the same resolver as §4.1a, then return the raw bytes
at the canonical path together with that path; fail when the target is
missing (`ResolutionError`, §4.1a/§7) or when there is no filesystem
to read from (`LoadError`). -/
def loaderLoad (env : Env) (fs : Option FsT) (pwd name : String) :
    Except Err LoadedData :=
  let filename := env.resolve pwd name
  match fs with
  | none => .error (.loadError filename)
  | some m =>
    match lookupA m filename with
    | none => .error (.resolutionError filename)
    | some data => .ok ⟨data, filename⟩

/-- The cache-miss pipeline of `requireFile` (lines 141–153): load the
source, transform it, compile it; each collaborator invocation is
counted against the canonical path it was invoked for. -/
def compilePipeline (env : Env) (st : InitContext) (pwd name : String) :
    Except Err ProgramWithSource × InitContext :=
  let st1 := { st with loadCount := bump st.loadCount (env.resolve pwd name) }
  match loaderLoad env st.fs pwd name with
  | .error e => (.error e, st1)
  | .ok data =>
    let st2 := { st1 with
      transformCount := bump st1.transformCount data.Filename }
    match env.transform data.Data data.Filename with
    | .error e => (.error e, st2)
    | .ok src =>
      let st3 := { st2 with
        compileCount := bump st2.compileCount data.Filename }
      match env.compile data.Filename src with
      | .error e => (.error e, st3)
      | .ok pgm => (.ok ⟨pgm, src⟩, st3)

/-- The value component of `compilePipeline`, which depends only on the
collaborators, the filesystem and the resolution inputs. -/
def pipelineResult (env : Env) (fs : Option FsT) (pwd name : String) :
    Except Err ProgramWithSource :=
  match loaderLoad env fs pwd name with
  | .error e => .error e
  | .ok data =>
    match env.transform data.Data data.Filename with
    | .error e => .error e
    | .ok src =>
      match env.compile data.Filename src with
      | .error e => .error e
      | .ok pgm => .ok ⟨pgm, src⟩

/-- `requireModule` (lines 111–117): look the name up in the builtin
registry; a missing entry is `UnknownBuiltinModule`.  On a hit the
binding step is modelled from the spec (§4.2: `common.Bind` and
`modules.Index` are not under `src/`): binding produces a fresh
engine value exposing the native module, touching neither `pwd`, nor
the `exports`/`module` bindings, nor either cache. -/
def requireModule (env : Env) (name : String) (st : InitContext) :
    Except Err Value × InitContext :=
  if env.builtins.contains name then
    match newObject st with
    | (oid, st1) => (.ok (.obj oid), st1)
  else
    (.error (.unknownBuiltin name), st)

/-- Lines 132–136: install a fresh `exports` object and a fresh
`module` object whose `exports` field aliases it; returns the two
allocation ids. -/
def enterModuleScope (st : InitContext) : Nat × Nat × InitContext :=
  match newObject st with
  | (exportsId, st1) =>
    match newObject (setGlobal st1 "exports" (.obj exportsId)) with
    | (moduleId, st2) =>
      (exportsId, moduleId,
       setGlobal (setField st2 moduleId "exports" (.obj exportsId))
         "module" (.obj moduleId))

/-- The deferred restores of `requireFile` (lines 124, 128, 130): put
back the saved `pwd` and the saved `exports`/`module` bindings. -/
def restoreScope (st : InitContext) (pwd : String)
    (oldExports oldModule : Value) : InitContext :=
  setGlobal (setGlobal { st with pwd := pwd } "exports" oldExports)
    "module" oldModule

mutual

/-- Evaluate an expression; `require(spec)` dispatches exactly as
`Require` does (line 92–108). -/
def evalExpr : Nat → Env → Expr → InitContext → Except Err Value × InitContext
  | 0, _, _, st => (.error fuelErr, st)
  | fuel + 1, env, e, st =>
    match e with
    | .lit n => (.ok (.vint n), st)
    | .globalE k => (.ok (getGlobal st k), st)
    | .field e1 f =>
      match evalExpr fuel env e1 st with
      | (.error err, st1) => (.error err, st1)
      | (.ok v, st1) =>
        match v with
        | .obj oid => (.ok (getField st1 oid f), st1)
        | _ => (.error (.executionError "member access on non-object"), st1)
    | .req spec =>
      if spec = "k6" ∨ "k6/".data.isPrefixOf spec.data then
        requireModule env spec st
      else requireFile fuel env spec st
    | .add e1 e2 =>
      match evalExpr fuel env e1 st with
      | (.error err, st1) => (.error err, st1)
      | (.ok v1, st1) =>
        match evalExpr fuel env e2 st1 with
        | (.error err, st2) => (.error err, st2)
        | (.ok v2, st2) =>
          match v1, v2 with
          | .vint n1, .vint n2 => (.ok (.vint (n1 + n2)), st2)
          | _, _ => (.error (.executionError "add on non-numbers"), st2)

/-- Execute one statement. -/
def execStmt : Nat → Env → Stmt → InitContext → Except Err Unit × InitContext
  | 0, _, _, st => (.error fuelErr, st)
  | fuel + 1, env, s, st =>
    match s with
    | .assignGlobal k e =>
      match evalExpr fuel env e st with
      | (.error err, st1) => (.error err, st1)
      | (.ok v, st1) => (.ok (), setGlobal st1 k v)
    | .assignField e1 f e2 =>
      match evalExpr fuel env e1 st with
      | (.error err, st1) => (.error err, st1)
      | (.ok v1, st1) =>
        match v1 with
        | .obj oid =>
          match evalExpr fuel env e2 st1 with
          | (.error err, st2) => (.error err, st2)
          | (.ok v2, st2) => (.ok (), setField st2 oid f v2)
        | _ => (.error (.executionError "member assign on non-object"), st1)
    | .incField e1 f =>
      match evalExpr fuel env e1 st with
      | (.error err, st1) => (.error err, st1)
      | (.ok v1, st1) =>
        match v1 with
        | .obj oid =>
          match getField st1 oid f with
          | .vint n => (.ok (), setField st1 oid f (.vint (n + 1)))
          | _ => (.error (.executionError "increment of non-number"), st1)
        | _ => (.error (.executionError "member assign on non-object"), st1)
    | .exprS e =>
      match evalExpr fuel env e st with
      | (.error err, st1) => (.error err, st1)
      | (.ok _, st1) => (.ok (), st1)
    | .throwS msg => (.error (.executionError msg), st)

/-- `runtime.RunProgram`: run the statements in order, stopping at the
first raised error. -/
def execStmts : Nat → Env → List Stmt → InitContext →
    Except Err Unit × InitContext
  | 0, _, _, st => (.error fuelErr, st)
  | _ + 1, _, [], st => (.ok (), st)
  | fuel + 1, env, s :: rest, st =>
    match execStmt fuel env s st with
    | (.error err, st1) => (.error err, st1)
    | (.ok _, st1) => execStmts fuel env rest st1

/-- Lines 160–164: run the (cached or freshly compiled) program, then
read `module.Get("exports")` from the local `module` object. -/
def executeCached : Nat → Env → ProgramWithSource → Nat → InitContext →
    Except Err Value × InitContext
  | 0, _, _, _, st => (.error fuelErr, st)
  | fuel + 1, env, pgm, moduleId, st =>
    match execStmts fuel env pgm.pgm st with
    | (.error err, st1) => (.error err, st1)
    | (.ok _, st1) => (.ok (getField st1 moduleId "exports"), st1)

/-- Lines 139–164, with the scope swaps already performed: cache lookup
by canonical path; on a miss run the load/transform/compile pipeline
(against the saved `pwd`) and cache the result before executing. -/
def moduleBody : Nat → Env → String → String → String → Nat → InitContext →
    Except Err Value × InitContext
  | 0, _, _, _, _, _, st => (.error fuelErr, st)
  | fuel + 1, env, filename, pwd, name, moduleId, st =>
    match lookupA st.programs filename with
    | some pgm => executeCached fuel env pgm moduleId st
    | none =>
      match compilePipeline env st pwd name with
      | (.error e, st1) => (.error e, st1)
      | (.ok pgm, st1) =>
        executeCached fuel env pgm moduleId
          { st1 with programs := insertA st1.programs filename pgm }

/-- `requireFile` (lines 119–165): resolve against the current `pwd`,
push the target's directory as `pwd`, save and swap out the
`exports`/`module` bindings, run `moduleBody`, and restore `pwd` and
the saved bindings on every exit path. -/
def requireFile : Nat → Env → String → InitContext →
    Except Err Value × InitContext
  | 0, _, _, st => (.error fuelErr, st)
  | fuel + 1, env, name, st =>
    let pwd := st.pwd
    let filename := env.resolve pwd name
    let st1 := { st with pwd := env.dir filename }
    let oldExports := getGlobal st1 "exports"
    let oldModule := getGlobal st1 "module"
    match enterModuleScope st1 with
    | (_, moduleId, st2) =>
      match moduleBody fuel env filename pwd name moduleId st2 with
      | (r, st3) => (r, restoreScope st3 pwd oldExports oldModule)

end

/-- `Require` (lines 91–109): names equal to `"k6"` or under `"k6/"`
go to the builtin registry; everything else is loaded from the
filesystem.  Errors propagate to the calling script (`common.Throw`). -/
def Require (fuel : Nat) (env : Env) (arg : String) (st : InitContext) :
    Except Err Value × InitContext :=
  if arg = "k6" ∨ "k6/".data.isPrefixOf arg.data then requireModule env arg st
  else requireFile fuel env arg st

/-- `Open` (lines 167–179): resolve against the current `pwd`, serve
from the file cache, otherwise load and cache the raw content. -/
def Open (env : Env) (st : InitContext) (name : String) :
    Except Err String × InitContext :=
  let filename := env.resolve st.pwd name
  match lookupA st.files filename with
  | some data => (.ok data, st)
  | none =>
    let st1 := { st with loadCount := bump st.loadCount filename }
    match loaderLoad env st.fs st.pwd name with
    | .error e => (.error e, st1)
    | .ok data =>
      (.ok data.Data, { st1 with files := insertA st1.files filename data.Data })

/-- `NewInitContext` (lines 62–74): fresh empty caches. -/
def NewInitContext (fs : Option FsT) (pwd : String) : InitContext :=
  { fs := fs, pwd := pwd, programs := [], files := [], console := 0,
    globals := [], heap := [], nextObj := 0,
    loadCount := [], transformCount := [], compileCount := [] }

/-- `newBoundInitContext` (lines 76–89): a replicated context for a new
runtime — same program cache, file cache and console, `pwd` copied,
but a nil filesystem and a fresh engine (fresh globals and heap). -/
def newBoundInitContext (base : InitContext) : InitContext :=
  { fs := none, pwd := base.pwd,
    programs := base.programs, files := base.files,
    console := base.console,
    globals := [], heap := [], nextObj := 0,
    loadCount := base.loadCount, transformCount := base.transformCount,
    compileCount := base.compileCount }

/-! ### Basic lemmas about the state operations -/

theorem lookupA_insertA_self {κ α : Type} [DecidableEq κ]
    (l : List (κ × α)) (k : κ) (v : α) :
    lookupA (insertA l k v) k = some v := by
  simp [lookupA, insertA]

theorem lookupA_insertA_ne {κ α : Type} [DecidableEq κ]
    (l : List (κ × α)) (k k' : κ) (v : α) (h : k ≠ k') :
    lookupA (insertA l k v) k' = lookupA l k' := by
  simp [lookupA, insertA, h]

theorem countFor_bump_self (l : List (String × Nat)) (k : String) :
    countFor (bump l k) k = countFor l k + 1 := by
  simp [countFor, bump, lookupA_insertA_self]

theorem countFor_bump_ne (l : List (String × Nat)) (k k' : String)
    (h : k ≠ k') : countFor (bump l k) k' = countFor l k' := by
  simp [countFor, bump, lookupA_insertA_ne _ _ _ _ h]

@[simp] theorem setGlobal_pwd (st : InitContext) (k : String) (v : Value) :
    (setGlobal st k v).pwd = st.pwd := rfl
@[simp] theorem setGlobal_programs (st : InitContext) (k : String) (v : Value) :
    (setGlobal st k v).programs = st.programs := rfl
@[simp] theorem setGlobal_files (st : InitContext) (k : String) (v : Value) :
    (setGlobal st k v).files = st.files := rfl
@[simp] theorem setGlobal_fs (st : InitContext) (k : String) (v : Value) :
    (setGlobal st k v).fs = st.fs := rfl
@[simp] theorem setGlobal_loadCount (st : InitContext) (k : String) (v : Value) :
    (setGlobal st k v).loadCount = st.loadCount := rfl
@[simp] theorem setGlobal_transformCount (st : InitContext) (k : String)
    (v : Value) : (setGlobal st k v).transformCount = st.transformCount := rfl
@[simp] theorem setGlobal_compileCount (st : InitContext) (k : String)
    (v : Value) : (setGlobal st k v).compileCount = st.compileCount := rfl

@[simp] theorem setField_pwd (st : InitContext) (oid : Nat) (f : String)
    (v : Value) : (setField st oid f v).pwd = st.pwd := rfl
@[simp] theorem setField_programs (st : InitContext) (oid : Nat) (f : String)
    (v : Value) : (setField st oid f v).programs = st.programs := rfl
@[simp] theorem setField_files (st : InitContext) (oid : Nat) (f : String)
    (v : Value) : (setField st oid f v).files = st.files := rfl
@[simp] theorem setField_fs (st : InitContext) (oid : Nat) (f : String)
    (v : Value) : (setField st oid f v).fs = st.fs := rfl
@[simp] theorem setField_globals (st : InitContext) (oid : Nat) (f : String)
    (v : Value) : (setField st oid f v).globals = st.globals := rfl
@[simp] theorem setField_loadCount (st : InitContext) (oid : Nat) (f : String)
    (v : Value) : (setField st oid f v).loadCount = st.loadCount := rfl
@[simp] theorem setField_transformCount (st : InitContext) (oid : Nat)
    (f : String) (v : Value) :
    (setField st oid f v).transformCount = st.transformCount := rfl
@[simp] theorem setField_compileCount (st : InitContext) (oid : Nat)
    (f : String) (v : Value) :
    (setField st oid f v).compileCount = st.compileCount := rfl

@[simp] theorem newObject_pwd (st : InitContext) :
    (newObject st).2.pwd = st.pwd := rfl
@[simp] theorem newObject_programs (st : InitContext) :
    (newObject st).2.programs = st.programs := rfl
@[simp] theorem newObject_files (st : InitContext) :
    (newObject st).2.files = st.files := rfl
@[simp] theorem newObject_fs (st : InitContext) :
    (newObject st).2.fs = st.fs := rfl
@[simp] theorem newObject_globals (st : InitContext) :
    (newObject st).2.globals = st.globals := rfl
@[simp] theorem newObject_loadCount (st : InitContext) :
    (newObject st).2.loadCount = st.loadCount := rfl
@[simp] theorem newObject_transformCount (st : InitContext) :
    (newObject st).2.transformCount = st.transformCount := rfl
@[simp] theorem newObject_compileCount (st : InitContext) :
    (newObject st).2.compileCount = st.compileCount := rfl

theorem getGlobal_setGlobal_self (st : InitContext) (k : String) (v : Value) :
    getGlobal (setGlobal st k v) k = v := by
  simp [getGlobal, setGlobal, lookupA_insertA_self]

theorem getGlobal_setGlobal_ne (st : InitContext) (k k' : String) (v : Value)
    (h : k ≠ k') : getGlobal (setGlobal st k v) k' = getGlobal st k' := by
  simp [getGlobal, setGlobal, lookupA_insertA_ne _ _ _ _ h]

@[simp] theorem restoreScope_pwd (st : InitContext) (pwd : String)
    (a b : Value) : (restoreScope st pwd a b).pwd = pwd := rfl
@[simp] theorem restoreScope_programs (st : InitContext) (pwd : String)
    (a b : Value) : (restoreScope st pwd a b).programs = st.programs := rfl
@[simp] theorem restoreScope_files (st : InitContext) (pwd : String)
    (a b : Value) : (restoreScope st pwd a b).files = st.files := rfl
@[simp] theorem restoreScope_fs (st : InitContext) (pwd : String)
    (a b : Value) : (restoreScope st pwd a b).fs = st.fs := rfl
@[simp] theorem restoreScope_loadCount (st : InitContext) (pwd : String)
    (a b : Value) : (restoreScope st pwd a b).loadCount = st.loadCount := rfl
@[simp] theorem restoreScope_transformCount (st : InitContext) (pwd : String)
    (a b : Value) :
    (restoreScope st pwd a b).transformCount = st.transformCount := rfl
@[simp] theorem restoreScope_compileCount (st : InitContext) (pwd : String)
    (a b : Value) :
    (restoreScope st pwd a b).compileCount = st.compileCount := rfl

theorem getGlobal_restoreScope_exports (st : InitContext) (pwd : String)
    (a b : Value) : getGlobal (restoreScope st pwd a b) "exports" = a := by
  have h : ("module" : String) ≠ "exports" := by decide
  rw [restoreScope, getGlobal_setGlobal_ne _ _ _ _ h, getGlobal_setGlobal_self]

theorem getGlobal_restoreScope_module (st : InitContext) (pwd : String)
    (a b : Value) : getGlobal (restoreScope st pwd a b) "module" = b := by
  rw [restoreScope, getGlobal_setGlobal_self]

theorem getGlobal_pwdSet (st : InitContext) (d k : String) :
    getGlobal { st with pwd := d } k = getGlobal st k := rfl

@[simp] theorem enterModuleScope_pwd (st : InitContext) :
    (enterModuleScope st).2.2.pwd = st.pwd := rfl
@[simp] theorem enterModuleScope_programs (st : InitContext) :
    (enterModuleScope st).2.2.programs = st.programs := rfl
@[simp] theorem enterModuleScope_files (st : InitContext) :
    (enterModuleScope st).2.2.files = st.files := rfl
@[simp] theorem enterModuleScope_fs (st : InitContext) :
    (enterModuleScope st).2.2.fs = st.fs := rfl
@[simp] theorem enterModuleScope_loadCount (st : InitContext) :
    (enterModuleScope st).2.2.loadCount = st.loadCount := rfl
@[simp] theorem enterModuleScope_transformCount (st : InitContext) :
    (enterModuleScope st).2.2.transformCount = st.transformCount := rfl
@[simp] theorem enterModuleScope_compileCount (st : InitContext) :
    (enterModuleScope st).2.2.compileCount = st.compileCount := rfl

/-! ### Claim theorems -/

/-- C2: for every call to `requireFile` — whatever nested `require`
sequences the module's execution performs, and on every exit path
(normal return, load error, compile error, or execution error) — the
`pwd` after the call equals its value before the call. -/
theorem requireFile_preserves_pwd (fuel : Nat) (env : Env) (name : String)
    (st : InitContext) : (requireFile fuel env name st).2.pwd = st.pwd := by
  cases fuel with
  | zero => rfl
  | succ f => simp [requireFile]

/-- C3: for every call to `requireFile`, the calling scope's `exports`
and `module` global bindings after the call are the very same values
(object identity being allocation-id equality) as before the call, on
every exit path; and during the load `enterModuleScope` installs a
fresh `exports` object and a fresh distinct `module` object whose
`exports` field aliases the `exports` object. -/
theorem requireFile_restores_bindings (fuel : Nat) (env : Env) (name : String)
    (st st' : InitContext) :
    (getGlobal (requireFile fuel env name st).2 "exports"
        = getGlobal st "exports"
      ∧ getGlobal (requireFile fuel env name st).2 "module"
        = getGlobal st "module")
    ∧ ((enterModuleScope st').1 = st'.nextObj
      ∧ (enterModuleScope st').2.1 = st'.nextObj + 1
      ∧ (enterModuleScope st').1 ≠ (enterModuleScope st').2.1
      ∧ getGlobal (enterModuleScope st').2.2 "exports"
          = .obj (enterModuleScope st').1
      ∧ getGlobal (enterModuleScope st').2.2 "module"
          = .obj (enterModuleScope st').2.1
      ∧ getField (enterModuleScope st').2.2 (enterModuleScope st').2.1 "exports"
          = .obj (enterModuleScope st').1) := by
  constructor
  · cases fuel with
    | zero => exact ⟨rfl, rfl⟩
    | succ f =>
      constructor
      · simp only [requireFile]
        rw [getGlobal_restoreScope_exports]
        rfl
      · simp only [requireFile]
        rw [getGlobal_restoreScope_module]
        rfl
  · have h1 : (enterModuleScope st').1 = st'.nextObj := rfl
    have h2 : (enterModuleScope st').2.1 = st'.nextObj + 1 := rfl
    refine ⟨h1, h2, ?_, ?_, ?_, ?_⟩
    · rw [h1, h2]; omega
    · have h : ("module" : String) ≠ "exports" := by decide
      show getGlobal (setGlobal (setField _ _ _ _) "module" _) "exports" = _
      rw [getGlobal_setGlobal_ne _ _ _ _ h]
      show getGlobal (setGlobal _ "exports" _) "exports" = _
      rw [getGlobal_setGlobal_self]
      rfl
    · exact getGlobal_setGlobal_self _ _ _
    · have h : st'.nextObj ≠ st'.nextObj + 1 := by omega
      simp [enterModuleScope, newObject, setGlobal, setField, getField,
        lookupA_insertA_self, lookupA_insertA_ne _ _ _ _ h, lookupA, insertA]

/-- C5: requiring a reserved-namespace name (`"k6"` or `"k6/..."`) that
is not in the builtin registry fails with `UnknownBuiltinModule`, and
the state — in particular the ModuleCache and the FileCache — is left
unchanged. -/
theorem require_unknown_builtin (fuel : Nat) (env : Env) (arg : String)
    (st : InitContext) (hb : arg = "k6" ∨ "k6/".data.isPrefixOf arg.data)
    (hmiss : env.builtins.contains arg = false) :
    Require fuel env arg st = (.error (.unknownBuiltin arg), st) := by
  rw [Require, if_pos hb, requireModule, hmiss]
  rfl

/-- Witness for C5 at a concrete unregistered reserved name. -/
theorem require_unknown_builtin_witness :
    Require 3
        { resolve := fun _ n => n, dir := fun _ => "",
          transform := fun s _ => .ok s,
          compile := fun _ _ => .error (.compileError ""),
          builtins := ["k6", "k6/http"] }
        "k6/doesnotexist" (NewInitContext none "/")
      = (.error (.unknownBuiltin "k6/doesnotexist"), NewInitContext none "/") :=
  require_unknown_builtin 3 _ _ _ (Or.inr (by decide)) (by decide)

/-- C10: a builtin-namespace `Require` (whether the registry lookup
succeeds or fails) leaves `pwd`, the `exports` and `module` global
bindings, the ModuleCache and the FileCache unchanged. -/
theorem require_builtin_frame (fuel : Nat) (env : Env) (arg : String)
    (st : InitContext) (hb : arg = "k6" ∨ "k6/".data.isPrefixOf arg.data) :
    (Require fuel env arg st).2.pwd = st.pwd
    ∧ getGlobal (Require fuel env arg st).2 "exports" = getGlobal st "exports"
    ∧ getGlobal (Require fuel env arg st).2 "module" = getGlobal st "module"
    ∧ (Require fuel env arg st).2.programs = st.programs
    ∧ (Require fuel env arg st).2.files = st.files := by
  have hR : Require fuel env arg st = requireModule env arg st := by
    rw [Require, if_pos hb]
  rw [hR]
  cases hc : env.builtins.contains arg with
  | true =>
    rw [requireModule, hc]
    simp [getGlobal, newObject]
  | false =>
    rw [requireModule, hc]
    simp

/-- Witness for C10 at the reserved root name. -/
theorem require_builtin_frame_witness :
    (Require 3
        { resolve := fun _ n => n, dir := fun _ => "",
          transform := fun s _ => .ok s,
          compile := fun _ _ => .error (.compileError ""),
          builtins := ["k6"] }
        "k6" (NewInitContext none "/")).2.pwd
      = (NewInitContext none "/").pwd :=
  (require_builtin_frame 3 _ _ _ (Or.inl rfl)).1

/-! ### The concrete scenario of C4 -/

/-- The library module of the C4 scenario: freshly computes
`exports.value = 1` on each load. -/
def libProg : Prog :=
  [Stmt.assignField (Expr.globalE "exports") "value" (Expr.lit 1)]

/-- The entry module of the C4 scenario:
`var x = require('./lib.js').value; require('./lib.js').value += 1;`. -/
def mainProg : Prog :=
  [Stmt.assignGlobal "x" (Expr.field (Expr.req "./lib.js") "value"),
   Stmt.incField (Expr.req "./lib.js") "value"]

/-- Filesystem of the C4 scenario. -/
def fsC4 : FsT := [("/t/main.js", "SRC_MAIN"), ("/t/lib.js", "SRC_LIB")]

/-- Collaborators of the C4 scenario: a resolver mapping `./lib.js`
relative to a directory, an identity transform, and a compiler taking
the two sources to the two programs above. -/
def envC4 : Env :=
  { resolve := fun pwd name =>
      if name = "./lib.js" then pwd ++ "/lib.js" else name,
    dir := fun fn =>
      if fn = "/t/main.js" then "/t"
      else if fn = "/t/lib.js" then "/t" else "",
    transform := fun src _ => .ok src,
    compile := fun fn _ =>
      if fn = "/t/main.js" then .ok mainProg
      else if fn = "/t/lib.js" then .ok libProg
      else .error (.compileError fn),
    builtins := [] }

/-- Initial context of the C4 scenario. -/
def stC4 : InitContext := NewInitContext (some fsC4) "/t"

/-- The entry module's compiled cache entry in the C4 scenario. -/
def pgmMain : ProgramWithSource := { pgm := mainProg, src := "SRC_MAIN" }

/-- The library module's compiled cache entry in the C4 scenario. -/
def pgmLib : ProgramWithSource := { pgm := libProg, src := "SRC_LIB" }

def stS2 : InitContext :=
  { fs := some [("/t/main.js", "SRC_MAIN"), ("/t/lib.js", "SRC_LIB")],
    pwd := "/t",
    programs := [],
    files := [],
    console := 0,
    globals := [("module", Value.obj 1), ("exports", Value.obj 0)],
    heap := [(1, [("exports", Value.obj 0)]), (1, []), (0, [])],
    nextObj := 2,
    loadCount := [],
    transformCount := [],
    compileCount := [] }

def stS3 : InitContext :=
  { fs := some [("/t/main.js", "SRC_MAIN"), ("/t/lib.js", "SRC_LIB")],
    pwd := "/t",
    programs := [],
    files := [],
    console := 0,
    globals := [("module", Value.obj 1), ("exports", Value.obj 0)],
    heap := [(1, [("exports", Value.obj 0)]), (1, []), (0, [])],
    nextObj := 2,
    loadCount := [("/t/main.js", 1)],
    transformCount := [("/t/main.js", 1)],
    compileCount := [("/t/main.js", 1)] }

def stS4 : InitContext :=
  { fs := some [("/t/main.js", "SRC_MAIN"), ("/t/lib.js", "SRC_LIB")],
    pwd := "/t",
    programs := [("/t/main.js",
                  { pgm := mainProg,
                    src := "SRC_MAIN" })],
    files := [],
    console := 0,
    globals := [("module", Value.obj 1), ("exports", Value.obj 0)],
    heap := [(1, [("exports", Value.obj 0)]), (1, []), (0, [])],
    nextObj := 2,
    loadCount := [("/t/main.js", 1)],
    transformCount := [("/t/main.js", 1)],
    compileCount := [("/t/main.js", 1)] }

def stT1 : InitContext :=
  { fs := some [("/t/main.js", "SRC_MAIN"), ("/t/lib.js", "SRC_LIB")],
    pwd := "/t",
    programs := [("/t/main.js",
                  { pgm := mainProg,
                    src := "SRC_MAIN" })],
    files := [],
    console := 0,
    globals := [("module", Value.obj 3),
                ("exports", Value.obj 2),
                ("module", Value.obj 1),
                ("exports", Value.obj 0)],
    heap := [(3, [("exports", Value.obj 2)]),
             (3, []),
             (2, []),
             (1, [("exports", Value.obj 0)]),
             (1, []),
             (0, [])],
    nextObj := 4,
    loadCount := [("/t/main.js", 1)],
    transformCount := [("/t/main.js", 1)],
    compileCount := [("/t/main.js", 1)] }

def stT2 : InitContext :=
  { fs := some [("/t/main.js", "SRC_MAIN"), ("/t/lib.js", "SRC_LIB")],
    pwd := "/t",
    programs := [("/t/main.js",
                  { pgm := mainProg,
                    src := "SRC_MAIN" })],
    files := [],
    console := 0,
    globals := [("module", Value.obj 3),
                ("exports", Value.obj 2),
                ("module", Value.obj 1),
                ("exports", Value.obj 0)],
    heap := [(3, [("exports", Value.obj 2)]),
             (3, []),
             (2, []),
             (1, [("exports", Value.obj 0)]),
             (1, []),
             (0, [])],
    nextObj := 4,
    loadCount := [("/t/lib.js", 1), ("/t/main.js", 1)],
    transformCount := [("/t/lib.js", 1), ("/t/main.js", 1)],
    compileCount := [("/t/lib.js", 1), ("/t/main.js", 1)] }

def stT3 : InitContext :=
  { fs := some [("/t/main.js", "SRC_MAIN"), ("/t/lib.js", "SRC_LIB")],
    pwd := "/t",
    programs := [("/t/lib.js",
                  { pgm := libProg,
                    src := "SRC_LIB" }),
                 ("/t/main.js",
                  { pgm := mainProg,
                    src := "SRC_MAIN" })],
    files := [],
    console := 0,
    globals := [("module", Value.obj 3),
                ("exports", Value.obj 2),
                ("module", Value.obj 1),
                ("exports", Value.obj 0)],
    heap := [(3, [("exports", Value.obj 2)]),
             (3, []),
             (2, []),
             (1, [("exports", Value.obj 0)]),
             (1, []),
             (0, [])],
    nextObj := 4,
    loadCount := [("/t/lib.js", 1), ("/t/main.js", 1)],
    transformCount := [("/t/lib.js", 1), ("/t/main.js", 1)],
    compileCount := [("/t/lib.js", 1), ("/t/main.js", 1)] }

def stT4 : InitContext :=
  { fs := some [("/t/main.js", "SRC_MAIN"), ("/t/lib.js", "SRC_LIB")],
    pwd := "/t",
    programs := [("/t/lib.js",
                  { pgm := libProg,
                    src := "SRC_LIB" }),
                 ("/t/main.js",
                  { pgm := mainProg,
                    src := "SRC_MAIN" })],
    files := [],
    console := 0,
    globals := [("module", Value.obj 3),
                ("exports", Value.obj 2),
                ("module", Value.obj 1),
                ("exports", Value.obj 0)],
    heap := [(2, [("value", Value.vint 1)]),
             (3, [("exports", Value.obj 2)]),
             (3, []),
             (2, []),
             (1, [("exports", Value.obj 0)]),
             (1, []),
             (0, [])],
    nextObj := 4,
    loadCount := [("/t/lib.js", 1), ("/t/main.js", 1)],
    transformCount := [("/t/lib.js", 1), ("/t/main.js", 1)],
    compileCount := [("/t/lib.js", 1), ("/t/main.js", 1)] }

def stT5 : InitContext :=
  { fs := some [("/t/main.js", "SRC_MAIN"), ("/t/lib.js", "SRC_LIB")],
    pwd := "/t",
    programs := [("/t/lib.js",
                  { pgm := libProg,
                    src := "SRC_LIB" }),
                 ("/t/main.js",
                  { pgm := mainProg,
                    src := "SRC_MAIN" })],
    files := [],
    console := 0,
    globals := [("module", Value.obj 1),
                ("exports", Value.obj 0),
                ("module", Value.obj 3),
                ("exports", Value.obj 2),
                ("module", Value.obj 1),
                ("exports", Value.obj 0)],
    heap := [(2, [("value", Value.vint 1)]),
             (3, [("exports", Value.obj 2)]),
             (3, []),
             (2, []),
             (1, [("exports", Value.obj 0)]),
             (1, []),
             (0, [])],
    nextObj := 4,
    loadCount := [("/t/lib.js", 1), ("/t/main.js", 1)],
    transformCount := [("/t/lib.js", 1), ("/t/main.js", 1)],
    compileCount := [("/t/lib.js", 1), ("/t/main.js", 1)] }

def stU1 : InitContext :=
  { fs := some [("/t/main.js", "SRC_MAIN"), ("/t/lib.js", "SRC_LIB")],
    pwd := "/t",
    programs := [("/t/lib.js",
                  { pgm := libProg,
                    src := "SRC_LIB" }),
                 ("/t/main.js",
                  { pgm := mainProg,
                    src := "SRC_MAIN" })],
    files := [],
    console := 0,
    globals := [("x", Value.vint 1),
                ("module", Value.obj 1),
                ("exports", Value.obj 0),
                ("module", Value.obj 3),
                ("exports", Value.obj 2),
                ("module", Value.obj 1),
                ("exports", Value.obj 0)],
    heap := [(2, [("value", Value.vint 1)]),
             (3, [("exports", Value.obj 2)]),
             (3, []),
             (2, []),
             (1, [("exports", Value.obj 0)]),
             (1, []),
             (0, [])],
    nextObj := 4,
    loadCount := [("/t/lib.js", 1), ("/t/main.js", 1)],
    transformCount := [("/t/lib.js", 1), ("/t/main.js", 1)],
    compileCount := [("/t/lib.js", 1), ("/t/main.js", 1)] }

def stTb1 : InitContext :=
  { fs := some [("/t/main.js", "SRC_MAIN"), ("/t/lib.js", "SRC_LIB")],
    pwd := "/t",
    programs := [("/t/lib.js",
                  { pgm := libProg,
                    src := "SRC_LIB" }),
                 ("/t/main.js",
                  { pgm := mainProg,
                    src := "SRC_MAIN" })],
    files := [],
    console := 0,
    globals := [("module", Value.obj 5),
                ("exports", Value.obj 4),
                ("x", Value.vint 1),
                ("module", Value.obj 1),
                ("exports", Value.obj 0),
                ("module", Value.obj 3),
                ("exports", Value.obj 2),
                ("module", Value.obj 1),
                ("exports", Value.obj 0)],
    heap := [(5, [("exports", Value.obj 4)]),
             (5, []),
             (4, []),
             (2, [("value", Value.vint 1)]),
             (3, [("exports", Value.obj 2)]),
             (3, []),
             (2, []),
             (1, [("exports", Value.obj 0)]),
             (1, []),
             (0, [])],
    nextObj := 6,
    loadCount := [("/t/lib.js", 1), ("/t/main.js", 1)],
    transformCount := [("/t/lib.js", 1), ("/t/main.js", 1)],
    compileCount := [("/t/lib.js", 1), ("/t/main.js", 1)] }

def stTb2 : InitContext :=
  { fs := some [("/t/main.js", "SRC_MAIN"), ("/t/lib.js", "SRC_LIB")],
    pwd := "/t",
    programs := [("/t/lib.js",
                  { pgm := libProg,
                    src := "SRC_LIB" }),
                 ("/t/main.js",
                  { pgm := mainProg,
                    src := "SRC_MAIN" })],
    files := [],
    console := 0,
    globals := [("module", Value.obj 5),
                ("exports", Value.obj 4),
                ("x", Value.vint 1),
                ("module", Value.obj 1),
                ("exports", Value.obj 0),
                ("module", Value.obj 3),
                ("exports", Value.obj 2),
                ("module", Value.obj 1),
                ("exports", Value.obj 0)],
    heap := [(4, [("value", Value.vint 1)]),
             (5, [("exports", Value.obj 4)]),
             (5, []),
             (4, []),
             (2, [("value", Value.vint 1)]),
             (3, [("exports", Value.obj 2)]),
             (3, []),
             (2, []),
             (1, [("exports", Value.obj 0)]),
             (1, []),
             (0, [])],
    nextObj := 6,
    loadCount := [("/t/lib.js", 1), ("/t/main.js", 1)],
    transformCount := [("/t/lib.js", 1), ("/t/main.js", 1)],
    compileCount := [("/t/lib.js", 1), ("/t/main.js", 1)] }

def stV5 : InitContext :=
  { fs := some [("/t/main.js", "SRC_MAIN"), ("/t/lib.js", "SRC_LIB")],
    pwd := "/t",
    programs := [("/t/lib.js",
                  { pgm := libProg,
                    src := "SRC_LIB" }),
                 ("/t/main.js",
                  { pgm := mainProg,
                    src := "SRC_MAIN" })],
    files := [],
    console := 0,
    globals := [("module", Value.obj 1),
                ("exports", Value.obj 0),
                ("module", Value.obj 5),
                ("exports", Value.obj 4),
                ("x", Value.vint 1),
                ("module", Value.obj 1),
                ("exports", Value.obj 0),
                ("module", Value.obj 3),
                ("exports", Value.obj 2),
                ("module", Value.obj 1),
                ("exports", Value.obj 0)],
    heap := [(4, [("value", Value.vint 1)]),
             (5, [("exports", Value.obj 4)]),
             (5, []),
             (4, []),
             (2, [("value", Value.vint 1)]),
             (3, [("exports", Value.obj 2)]),
             (3, []),
             (2, []),
             (1, [("exports", Value.obj 0)]),
             (1, []),
             (0, [])],
    nextObj := 6,
    loadCount := [("/t/lib.js", 1), ("/t/main.js", 1)],
    transformCount := [("/t/lib.js", 1), ("/t/main.js", 1)],
    compileCount := [("/t/lib.js", 1), ("/t/main.js", 1)] }

def stW : InitContext :=
  { fs := some [("/t/main.js", "SRC_MAIN"), ("/t/lib.js", "SRC_LIB")],
    pwd := "/t",
    programs := [("/t/lib.js",
                  { pgm := libProg,
                    src := "SRC_LIB" }),
                 ("/t/main.js",
                  { pgm := mainProg,
                    src := "SRC_MAIN" })],
    files := [],
    console := 0,
    globals := [("module", Value.obj 1),
                ("exports", Value.obj 0),
                ("module", Value.obj 5),
                ("exports", Value.obj 4),
                ("x", Value.vint 1),
                ("module", Value.obj 1),
                ("exports", Value.obj 0),
                ("module", Value.obj 3),
                ("exports", Value.obj 2),
                ("module", Value.obj 1),
                ("exports", Value.obj 0)],
    heap := [(4, [("value", Value.vint 2), ("value", Value.vint 1)]),
             (4, [("value", Value.vint 1)]),
             (5, [("exports", Value.obj 4)]),
             (5, []),
             (4, []),
             (2, [("value", Value.vint 1)]),
             (3, [("exports", Value.obj 2)]),
             (3, []),
             (2, []),
             (1, [("exports", Value.obj 0)]),
             (1, []),
             (0, [])],
    nextObj := 6,
    loadCount := [("/t/lib.js", 1), ("/t/main.js", 1)],
    transformCount := [("/t/lib.js", 1), ("/t/main.js", 1)],
    compileCount := [("/t/lib.js", 1), ("/t/main.js", 1)] }

def stZ : InitContext :=
  { fs := some [("/t/main.js", "SRC_MAIN"), ("/t/lib.js", "SRC_LIB")],
    pwd := "/t",
    programs := [("/t/lib.js",
                  { pgm := libProg,
                    src := "SRC_LIB" }),
                 ("/t/main.js",
                  { pgm := mainProg,
                    src := "SRC_MAIN" })],
    files := [],
    console := 0,
    globals := [("module", Value.undefined),
                ("exports", Value.undefined),
                ("module", Value.obj 1),
                ("exports", Value.obj 0),
                ("module", Value.obj 5),
                ("exports", Value.obj 4),
                ("x", Value.vint 1),
                ("module", Value.obj 1),
                ("exports", Value.obj 0),
                ("module", Value.obj 3),
                ("exports", Value.obj 2),
                ("module", Value.obj 1),
                ("exports", Value.obj 0)],
    heap := [(4, [("value", Value.vint 2), ("value", Value.vint 1)]),
             (4, [("value", Value.vint 1)]),
             (5, [("exports", Value.obj 4)]),
             (5, []),
             (4, []),
             (2, [("value", Value.vint 1)]),
             (3, [("exports", Value.obj 2)]),
             (3, []),
             (2, []),
             (1, [("exports", Value.obj 0)]),
             (1, []),
             (0, [])],
    nextObj := 6,
    loadCount := [("/t/lib.js", 1), ("/t/main.js", 1)],
    transformCount := [("/t/lib.js", 1), ("/t/main.js", 1)],
    compileCount := [("/t/lib.js", 1), ("/t/main.js", 1)] }

theorem c4_ems_top : enterModuleScope stC4 = (0, 1, stS2) := rfl

theorem c4_pipe_top :
    compilePipeline envC4 stS2 "/t" "/t/main.js" = (.ok pgmMain, stS3) := rfl

theorem c4_ins_top :
    ({ stS3 with programs := insertA stS3.programs "/t/main.js" pgmMain }
      : InitContext) = stS4 := rfl

theorem c4_ems_lib1 : enterModuleScope stS4 = (2, 3, stT1) := rfl

theorem c4_pipe_lib :
    compilePipeline envC4 stT1 "/t" "./lib.js" = (.ok pgmLib, stT2) := rfl

theorem c4_ins_lib :
    ({ stT2 with programs := insertA stT2.programs "/t/lib.js" pgmLib }
      : InitContext) = stT3 := rfl

theorem c4_stmt_lib1 :
    execStmt 2 envC4 (Stmt.assignField (Expr.globalE "exports") "value"
      (Expr.lit 1)) stT3 = (.ok (), stT4) := rfl

theorem c4_stmts_lib1 : execStmts 3 envC4 libProg stT3 = (.ok (), stT4) := by
  simp only [libProg, execStmts, c4_stmt_lib1]

theorem c4_exec_lib1 :
    executeCached 4 envC4 pgmLib 3 stT3 = (.ok (.obj 2), stT4) := by
  have hg : getField stT4 3 "exports" = .obj 2 := rfl
  simp only [executeCached, pgmLib, c4_stmts_lib1, hg]

theorem c4_body_lib1 :
    moduleBody 5 envC4 "/t/lib.js" "/t" "./lib.js" 3 stT1
      = (.ok (.obj 2), stT4) := by
  have hlk : lookupA stT1.programs "/t/lib.js" = none := rfl
  simp only [moduleBody, hlk, c4_pipe_lib, c4_ins_lib, c4_exec_lib1]

theorem c4_req_lib1 :
    requireFile 6 envC4 "./lib.js" stS4 = (.ok (.obj 2), stT5) := by
  have h0 : stS4.pwd = "/t" := rfl
  have h1 : envC4.resolve "/t" "./lib.js" = "/t/lib.js" := rfl
  have h2 : envC4.dir "/t/lib.js" = "/t" := rfl
  have h3 : ({ stS4 with pwd := "/t" } : InitContext) = stS4 := rfl
  have h4 : getGlobal stS4 "exports" = .obj 0 := rfl
  have h5 : getGlobal stS4 "module" = .obj 1 := rfl
  have h6 : restoreScope stT4 "/t" (.obj 0) (.obj 1) = stT5 := rfl
  simp only [requireFile, h0, h1, h2, h3, c4_ems_lib1, c4_body_lib1, h4, h5, h6]

theorem c4_ems_lib2 : enterModuleScope stU1 = (4, 5, stTb1) := rfl

theorem c4_stmt_lib2 :
    execStmt 2 envC4 (Stmt.assignField (Expr.globalE "exports") "value"
      (Expr.lit 1)) stTb1 = (.ok (), stTb2) := rfl

theorem c4_stmts_lib2 : execStmts 3 envC4 libProg stTb1 = (.ok (), stTb2) := by
  simp only [libProg, execStmts, c4_stmt_lib2]

theorem c4_exec_lib2 :
    executeCached 4 envC4 pgmLib 5 stTb1 = (.ok (.obj 4), stTb2) := by
  have hg : getField stTb2 5 "exports" = .obj 4 := rfl
  simp only [executeCached, pgmLib, c4_stmts_lib2, hg]

theorem c4_body_lib2 :
    moduleBody 5 envC4 "/t/lib.js" "/t" "./lib.js" 5 stTb1
      = (.ok (.obj 4), stTb2) := by
  have hlk : lookupA stTb1.programs "/t/lib.js" = some pgmLib := rfl
  simp only [moduleBody, hlk, c4_exec_lib2]

theorem c4_req_lib2 :
    requireFile 6 envC4 "./lib.js" stU1 = (.ok (.obj 4), stV5) := by
  have h0 : stU1.pwd = "/t" := rfl
  have h1 : envC4.resolve "/t" "./lib.js" = "/t/lib.js" := rfl
  have h2 : envC4.dir "/t/lib.js" = "/t" := rfl
  have h3 : ({ stU1 with pwd := "/t" } : InitContext) = stU1 := rfl
  have h4 : getGlobal stU1 "exports" = .obj 0 := rfl
  have h5 : getGlobal stU1 "module" = .obj 1 := rfl
  have h6 : restoreScope stTb2 "/t" (.obj 0) (.obj 1) = stV5 := rfl
  simp only [requireFile, h0, h1, h2, h3, c4_ems_lib2, c4_body_lib2, h4, h5, h6]

theorem c4_s1 :
    execStmt 9 envC4 (Stmt.assignGlobal "x"
      (Expr.field (Expr.req "./lib.js") "value")) stS4 = (.ok (), stU1) := by
  have hv : getField stT5 2 "value" = .vint 1 := rfl
  have hs : setGlobal stT5 "x" (.vint 1) = stU1 := rfl
  have hd : (("./lib.js" = "k6")
      ∨ (['k', '6', '/'].isPrefixOf ['.', '/', 'l', 'i', 'b', '.', 'j', 's'] = true))
      = False := eq_false (by decide)
  simp only [execStmt, evalExpr, hd, ite_false, c4_req_lib1, hv, hs]

theorem c4_s2 :
    execStmt 8 envC4 (Stmt.incField (Expr.req "./lib.js") "value") stU1
      = (.ok (), stW) := by
  have hv : getField stV5 4 "value" = .vint 1 := rfl
  have hs : setField stV5 4 "value" (.vint 2) = stW := rfl
  have hd : (("./lib.js" = "k6")
      ∨ (['k', '6', '/'].isPrefixOf ['.', '/', 'l', 'i', 'b', '.', 'j', 's'] = true))
      = False := eq_false (by decide)
  simp only [execStmt, evalExpr, hd, ite_false, c4_req_lib2, hv, Int.reduceAdd, hs]

theorem c4_stmts_main : execStmts 10 envC4 mainProg stS4 = (.ok (), stW) := by
  simp only [mainProg, execStmts, c4_s1, c4_s2]

theorem c4_exec_main :
    executeCached 11 envC4 pgmMain 1 stS4 = (.ok (.obj 0), stW) := by
  have hg : getField stW 1 "exports" = .obj 0 := rfl
  simp only [executeCached, pgmMain, c4_stmts_main, hg]

theorem c4_body_main :
    moduleBody 12 envC4 "/t/main.js" "/t" "/t/main.js" 1 stS2
      = (.ok (.obj 0), stW) := by
  have hlk : lookupA stS2.programs "/t/main.js" = none := rfl
  simp only [moduleBody, hlk, c4_pipe_top, c4_ins_top, c4_exec_main]

/-- The complete run of the C4 scenario: requiring the entry module
executes it (and its two nested requires of the library) to
completion. -/
theorem c4_run :
    requireFile 13 envC4 "/t/main.js" stC4 = (.ok (.obj 0), stZ) := by
  have h0 : stC4.pwd = "/t" := rfl
  have h1 : envC4.resolve "/t" "/t/main.js" = "/t/main.js" := rfl
  have h2 : envC4.dir "/t/main.js" = "/t" := rfl
  have h3 : ({ stC4 with pwd := "/t" } : InitContext) = stC4 := rfl
  have h4 : getGlobal stC4 "exports" = .undefined := rfl
  have h5 : getGlobal stC4 "module" = .undefined := rfl
  have h6 : restoreScope stW "/t" .undefined .undefined = stZ := rfl
  simp only [requireFile, h0, h1, h2, h3, c4_ems_top, c4_body_main, h4, h5, h6]

/-- C4: every `Require` of a file re-runs its top-level code and
produces a new exports object.  In the spec's scenario the entry
module requires `./lib.js` twice and increments `value` on the second
result: the run succeeds, `x` ends up `1`, the first call's exports
object (id `2`) still has `value = 1`, the increment acted on the
second call's distinct exports object (id `4`, `value = 2`), and the
library was compiled exactly once. -/
theorem require_reexecutes_each_time :
    (requireFile 13 envC4 "/t/main.js" stC4).1 = .ok (.obj 0)
    ∧ getGlobal (requireFile 13 envC4 "/t/main.js" stC4).2 "x" = .vint 1
    ∧ getField (requireFile 13 envC4 "/t/main.js" stC4).2 2 "value" = .vint 1
    ∧ getField (requireFile 13 envC4 "/t/main.js" stC4).2 4 "value" = .vint 2
    ∧ countFor (requireFile 13 envC4 "/t/main.js" stC4).2.compileCount
        "/t/lib.js" = 1 := by
  rw [c4_run]
  exact ⟨rfl, rfl, rfl, rfl, rfl⟩

/-! ### Characterisation of the cache-miss pipeline -/

theorem loaderLoad_filename (env : Env) (fs : Option FsT) (pwd name : String)
    (data : LoadedData) (h : loaderLoad env fs pwd name = .ok data) :
    data.Filename = env.resolve pwd name := by
  simp only [loaderLoad] at h
  split at h
  · exact absurd h (by simp)
  · split at h
    · exact absurd h (by simp)
    · cases h; rfl

theorem compilePipeline_fst (env : Env) (st : InitContext) (pwd name : String) :
    (compilePipeline env st pwd name).1 = pipelineResult env st.fs pwd name := by
  cases h1 : loaderLoad env st.fs pwd name with
  | error e => simp [compilePipeline, pipelineResult, h1]
  | ok data =>
    cases h2 : env.transform data.Data data.Filename with
    | error e => simp [compilePipeline, pipelineResult, h1, h2]
    | ok src =>
      cases h3 : env.compile data.Filename src with
      | error e => simp [compilePipeline, pipelineResult, h1, h2, h3]
      | ok pgm => simp [compilePipeline, pipelineResult, h1, h2, h3]

theorem compilePipeline_frame (env : Env) (st : InitContext)
    (pwd name : String) :
    (compilePipeline env st pwd name).2.programs = st.programs
    ∧ (compilePipeline env st pwd name).2.files = st.files
    ∧ (compilePipeline env st pwd name).2.fs = st.fs
    ∧ (compilePipeline env st pwd name).2.pwd = st.pwd
    ∧ (compilePipeline env st pwd name).2.globals = st.globals
    ∧ (compilePipeline env st pwd name).2.heap = st.heap
    ∧ (compilePipeline env st pwd name).2.nextObj = st.nextObj := by
  cases h1 : loaderLoad env st.fs pwd name with
  | error e => simp [compilePipeline, h1]
  | ok data =>
    cases h2 : env.transform data.Data data.Filename with
    | error e => simp [compilePipeline, h1, h2]
    | ok src =>
      cases h3 : env.compile data.Filename src with
      | error e => simp [compilePipeline, h1, h2, h3]
      | ok pgm => simp [compilePipeline, h1, h2, h3]

/-- When the whole pipeline succeeds, each of the loader, the
transformer and the compiler ran exactly once more for the canonical
path of the loaded module. -/
theorem compilePipeline_counts_ok (env : Env) (st : InitContext)
    (pwd name : String) (pgm : ProgramWithSource) (stp : InitContext)
    (h : compilePipeline env st pwd name = (.ok pgm, stp)) :
    countFor stp.loadCount (env.resolve pwd name)
      = countFor st.loadCount (env.resolve pwd name) + 1
    ∧ countFor stp.transformCount (env.resolve pwd name)
      = countFor st.transformCount (env.resolve pwd name) + 1
    ∧ countFor stp.compileCount (env.resolve pwd name)
      = countFor st.compileCount (env.resolve pwd name) + 1 := by
  cases h1 : loaderLoad env st.fs pwd name with
  | error e => simp [compilePipeline, h1] at h
  | ok data =>
    have hfn : data.Filename = env.resolve pwd name :=
      loaderLoad_filename env st.fs pwd name data h1
    cases h2 : env.transform data.Data data.Filename with
    | error e => simp [compilePipeline, h1, h2] at h
    | ok src =>
      cases h3 : env.compile data.Filename src with
      | error e => simp [compilePipeline, h1, h2, h3] at h
      | ok p =>
        simp only [compilePipeline, h1, h2, h3] at h
        cases h
        refine ⟨?_, ?_, ?_⟩ <;> simp [hfn, countFor_bump_self]

/-- The pipeline never touches invocation counters of a canonical path
other than the one it resolves. -/
theorem compilePipeline_counts_ne (env : Env) (st : InitContext)
    (pwd name fn : String) (hne : env.resolve pwd name ≠ fn) :
    countFor (compilePipeline env st pwd name).2.loadCount fn
      = countFor st.loadCount fn
    ∧ countFor (compilePipeline env st pwd name).2.transformCount fn
      = countFor st.transformCount fn
    ∧ countFor (compilePipeline env st pwd name).2.compileCount fn
      = countFor st.compileCount fn := by
  cases h1 : loaderLoad env st.fs pwd name with
  | error e => simp [compilePipeline, h1, countFor_bump_ne _ _ _ hne]
  | ok data =>
    have hfn : data.Filename = env.resolve pwd name :=
      loaderLoad_filename env st.fs pwd name data h1
    cases h2 : env.transform data.Data data.Filename with
    | error e =>
      rw [hfn] at h2
      simp [compilePipeline, h1, h2, hfn, countFor_bump_ne _ _ _ hne]
    | ok src =>
      cases h3 : env.compile data.Filename src with
      | error e =>
        rw [hfn] at h2 h3
        simp [compilePipeline, h1, h2, h3, hfn, countFor_bump_ne _ _ _ hne]
      | ok pgm =>
        rw [hfn] at h2 h3
        simp [compilePipeline, h1, h2, h3, hfn, countFor_bump_ne _ _ _ hne]

/-- One-step unfolding of `requireFile` at successor fuel, with the
destructured intermediate results written as projections. -/
theorem requireFile_succ (fuel : Nat) (env : Env) (name : String)
    (st : InitContext) :
    requireFile (fuel + 1) env name st
      = ((moduleBody fuel env (env.resolve st.pwd name) st.pwd name
            (enterModuleScope
              { st with pwd := env.dir (env.resolve st.pwd name) }).2.1
            (enterModuleScope
              { st with pwd := env.dir (env.resolve st.pwd name) }).2.2).1,
         restoreScope
           (moduleBody fuel env (env.resolve st.pwd name) st.pwd name
              (enterModuleScope
                { st with pwd := env.dir (env.resolve st.pwd name) }).2.1
              (enterModuleScope
                { st with pwd := env.dir (env.resolve st.pwd name) }).2.2).2
           st.pwd (getGlobal st "exports") (getGlobal st "module")) := rfl

theorem moduleBody_hit (fuel : Nat) (env : Env)
    (filename pwd name : String) (mid : Nat) (st : InitContext)
    (pgm : ProgramWithSource)
    (hlk : lookupA st.programs filename = some pgm) :
    moduleBody (fuel + 1) env filename pwd name mid st
      = executeCached fuel env pgm mid st := by
  simp only [moduleBody, hlk]

theorem moduleBody_miss_ok (fuel : Nat) (env : Env)
    (filename pwd name : String) (mid : Nat) (st : InitContext)
    (pgm : ProgramWithSource) (stp : InitContext)
    (hlk : lookupA st.programs filename = none)
    (hp : compilePipeline env st pwd name = (.ok pgm, stp)) :
    moduleBody (fuel + 1) env filename pwd name mid st
      = executeCached fuel env pgm mid
          { stp with programs := insertA stp.programs filename pgm } := by
  simp only [moduleBody, hlk, hp]

theorem moduleBody_miss_err (fuel : Nat) (env : Env)
    (filename pwd name : String) (mid : Nat) (st : InitContext)
    (e : Err) (stp : InitContext)
    (hlk : lookupA st.programs filename = none)
    (hp : compilePipeline env st pwd name = (.error e, stp)) :
    moduleBody (fuel + 1) env filename pwd name mid st = (.error e, stp) := by
  simp only [moduleBody, hlk, hp]

/-- On a ModuleCache miss whose load/transform/compile pipeline fails,
`requireFile` surfaces that error and leaves the ModuleCache and the
FileCache unchanged. -/
theorem requireFile_pipeline_err (fuel : Nat) (env : Env) (name : String)
    (st : InitContext) (e : Err)
    (hmiss : lookupA st.programs (env.resolve st.pwd name) = none)
    (herr : pipelineResult env st.fs st.pwd name = .error e) :
    (requireFile (fuel + 2) env name st).1 = .error e
    ∧ (requireFile (fuel + 2) env name st).2.programs = st.programs
    ∧ (requireFile (fuel + 2) env name st).2.files = st.files := by
  rw [requireFile_succ]
  have hfs2 :
      (enterModuleScope
        { st with pwd := env.dir (env.resolve st.pwd name) }).2.2.fs
        = st.fs := by simp
  have h1 : (compilePipeline env
      (enterModuleScope
        { st with pwd := env.dir (env.resolve st.pwd name) }).2.2
      st.pwd name).1 = .error e := by
    rw [compilePipeline_fst, hfs2, herr]
  have hp : compilePipeline env
      (enterModuleScope
        { st with pwd := env.dir (env.resolve st.pwd name) }).2.2
      st.pwd name
      = (.error e, (compilePipeline env
          (enterModuleScope
            { st with pwd := env.dir (env.resolve st.pwd name) }).2.2
          st.pwd name).2) := by
    rw [← h1]
  have hlk : lookupA
      (enterModuleScope
        { st with pwd := env.dir (env.resolve st.pwd name) }).2.2.programs
      (env.resolve st.pwd name) = none := by
    rw [enterModuleScope_programs]
    exact hmiss
  rw [moduleBody_miss_err fuel env (env.resolve st.pwd name)
    st.pwd name _ _ e _ hlk hp]
  have hframe := compilePipeline_frame env
    (enterModuleScope
      { st with pwd := env.dir (env.resolve st.pwd name) }).2.2 st.pwd name
  refine ⟨rfl, ?_, ?_⟩
  · rw [restoreScope_programs, hframe.1, enterModuleScope_programs]
  · rw [restoreScope_files, hframe.2.1, enterModuleScope_files]

/-- C6: when the cache-miss pipeline of `requireFile` fails (load,
transform, or compile), nothing is inserted into the ModuleCache and
the FileCache is untouched, so a later `Require` of the same path
starts from a miss again; the only cleanup is the restoration of
`pwd` and of the `exports`/`module` bindings.  Likewise a failed
`Open` inserts nothing into the FileCache (or the ModuleCache). -/
theorem failed_load_not_cached (fuel : Nat) (env : Env) (st : InitContext)
    (name fn name₂ fn₂ : String) (e e₂ : Err)
    (hres : env.resolve st.pwd name = fn)
    (hmiss : lookupA st.programs fn = none)
    (herr : pipelineResult env st.fs st.pwd name = .error e)
    (hres₂ : env.resolve st.pwd name₂ = fn₂)
    (hmiss₂ : lookupA st.files fn₂ = none)
    (herr₂ : loaderLoad env st.fs st.pwd name₂ = .error e₂) :
    ((requireFile (fuel + 2) env name st).1 = .error e
      ∧ (requireFile (fuel + 2) env name st).2.programs = st.programs
      ∧ (requireFile (fuel + 2) env name st).2.files = st.files
      ∧ (requireFile (fuel + 2) env name st).2.pwd = st.pwd
      ∧ getGlobal (requireFile (fuel + 2) env name st).2 "exports"
          = getGlobal st "exports"
      ∧ getGlobal (requireFile (fuel + 2) env name st).2 "module"
          = getGlobal st "module")
    ∧ ((Open env st name₂).1 = .error e₂
      ∧ (Open env st name₂).2.files = st.files
      ∧ (Open env st name₂).2.programs = st.programs) := by
  constructor
  · rw [requireFile_succ]
    have hfs2 :
        (enterModuleScope
          { st with pwd := env.dir (env.resolve st.pwd name) }).2.2.fs
          = st.fs := by simp
    have h1 : (compilePipeline env
        (enterModuleScope
          { st with pwd := env.dir (env.resolve st.pwd name) }).2.2
        st.pwd name).1 = .error e := by
      rw [compilePipeline_fst, hfs2, herr]
    have hp : compilePipeline env
        (enterModuleScope
          { st with pwd := env.dir (env.resolve st.pwd name) }).2.2
        st.pwd name
        = (.error e, (compilePipeline env
            (enterModuleScope
              { st with pwd := env.dir (env.resolve st.pwd name) }).2.2
            st.pwd name).2) := by
      rw [← h1]
    have hlk : lookupA
        (enterModuleScope
          { st with pwd := env.dir (env.resolve st.pwd name) }).2.2.programs
        (env.resolve st.pwd name) = none := by
      rw [enterModuleScope_programs]
      show lookupA st.programs (env.resolve st.pwd name) = none
      rw [hres]; exact hmiss
    rw [moduleBody_miss_err fuel env (env.resolve st.pwd name)
      st.pwd name _ _ e _ hlk hp]
    have hframe := compilePipeline_frame env
      (enterModuleScope
        { st with pwd := env.dir (env.resolve st.pwd name) }).2.2 st.pwd name
    refine ⟨rfl, ?_, ?_, rfl, ?_, ?_⟩
    · rw [restoreScope_programs, hframe.1, enterModuleScope_programs]
    · rw [restoreScope_files, hframe.2.1, enterModuleScope_files]
    · rw [getGlobal_restoreScope_exports]
    · rw [getGlobal_restoreScope_module]
  · have hlk2 : lookupA st.files (env.resolve st.pwd name₂) = none := by
      rw [hres₂]; exact hmiss₂
    simp [Open, hlk2, herr₂]

/-- A tiny environment used by witnesses: the identity resolver, the
identity transform, and a compiler producing the empty program. -/
def envTrivial : Env :=
  { resolve := fun _ n => n, dir := fun _ => "/",
    transform := fun s _ => .ok s, compile := fun _ _ => .ok [],
    builtins := [] }

/-- Witness for C6: with an empty filesystem both the module load and
the file open fail, and both caches stay empty. -/
theorem failed_load_not_cached_witness :
    ((requireFile 3 envTrivial "/a" (NewInitContext (some []) "/")).1
      = .error (.resolutionError "/a"))
    ∧ ((Open envTrivial (NewInitContext (some []) "/") "/b").1
      = .error (.resolutionError "/b")) :=
  ⟨(failed_load_not_cached 1 envTrivial (NewInitContext (some []) "/")
      "/a" "/a" "/b" "/b" (.resolutionError "/a") (.resolutionError "/b")
      rfl rfl rfl rfl rfl rfl).1.1,
   (failed_load_not_cached 1 envTrivial (NewInitContext (some []) "/")
      "/a" "/a" "/b" "/b" (.resolutionError "/a") (.resolutionError "/b")
      rfl rfl rfl rfl rfl rfl).2.1⟩

/-- A context whose ModuleCache already holds `/a` (with an empty
program) while the filesystem holds no file at all. -/
def stCachedNoFile : InitContext :=
  { fs := some [], pwd := "/",
    programs := [("/a", { pgm := [], src := "" })],
    files := [], console := 0, globals := [], heap := [], nextObj := 0,
    loadCount := [], transformCount := [], compileCount := [] }

/-- Counterexample to C7 as stated: the target `/a` does not exist on
the (empty) filesystem, yet `requireFile` succeeds, because the
ModuleCache is consulted before any resolution of the target against
the filesystem — existence is only checked inside the load step of a
cache miss. -/
theorem resolution_error_counterexample :
    stCachedNoFile.fs = some []
    ∧ lookupA ([] : FsT) "/a" = none
    ∧ (requireFile 4 envTrivial "/a" stCachedNoFile).1 = .ok (.obj 0) := by
  refine ⟨rfl, rfl, rfl⟩

/-- C7 (amended): on a ModuleCache miss, a file specifier whose
resolved target does not exist makes `requireFile` fail with a
`ResolutionError` carrying the canonical path, produced by the load
step before the transformer or the compiler run (their invocation
counters are unchanged), and nothing is cached. -/
theorem resolution_error_on_miss (fuel : Nat) (env : Env)
    (st : InitContext) (name fn : String) (m : FsT)
    (hres : env.resolve st.pwd name = fn)
    (hmiss : lookupA st.programs fn = none)
    (hfs : st.fs = some m)
    (hnofile : lookupA m fn = none) :
    (requireFile (fuel + 2) env name st).1 = .error (.resolutionError fn)
    ∧ countFor (requireFile (fuel + 2) env name st).2.transformCount fn
        = countFor st.transformCount fn
    ∧ countFor (requireFile (fuel + 2) env name st).2.compileCount fn
        = countFor st.compileCount fn
    ∧ (requireFile (fuel + 2) env name st).2.programs = st.programs := by
  have hLL : loaderLoad env
      (enterModuleScope
        { st with pwd := env.dir (env.resolve st.pwd name) }).2.2.fs
      st.pwd name = .error (.resolutionError fn) := by
    rw [enterModuleScope_fs]
    show loaderLoad env st.fs st.pwd name = .error (.resolutionError fn)
    simp only [loaderLoad, hfs, hres, hnofile]
  have hcp : compilePipeline env
      (enterModuleScope
        { st with pwd := env.dir (env.resolve st.pwd name) }).2.2
      st.pwd name
      = (.error (.resolutionError fn),
         { (enterModuleScope
             { st with pwd := env.dir (env.resolve st.pwd name) }).2.2 with
           loadCount := bump
             (enterModuleScope
               { st with pwd := env.dir (env.resolve st.pwd name) }).2.2.loadCount
             (env.resolve st.pwd name) }) := by
    simp only [compilePipeline, hLL]
  have hlk : lookupA
      (enterModuleScope
        { st with pwd := env.dir (env.resolve st.pwd name) }).2.2.programs
      (env.resolve st.pwd name) = none := by
    rw [enterModuleScope_programs]
    show lookupA st.programs (env.resolve st.pwd name) = none
    rw [hres]; exact hmiss
  rw [requireFile_succ]
  rw [moduleBody_miss_err fuel env (env.resolve st.pwd name) st.pwd name
    _ _ _ _ hlk hcp]
  refine ⟨rfl, ?_, ?_, ?_⟩
  · rw [restoreScope_transformCount]
    show countFor
      (enterModuleScope
        { st with pwd := env.dir (env.resolve st.pwd name) }).2.2.transformCount
      fn = countFor st.transformCount fn
    rw [enterModuleScope_transformCount]
  · rw [restoreScope_compileCount]
    show countFor
      (enterModuleScope
        { st with pwd := env.dir (env.resolve st.pwd name) }).2.2.compileCount
      fn = countFor st.compileCount fn
    rw [enterModuleScope_compileCount]
  · rw [restoreScope_programs]
    show (enterModuleScope
      { st with pwd := env.dir (env.resolve st.pwd name) }).2.2.programs
      = st.programs
    rw [enterModuleScope_programs]

/-- Witness for the amended C7 at a concrete missing file. -/
theorem resolution_error_on_miss_witness :
    (requireFile 3 envTrivial "/a" (NewInitContext (some []) "/")).1
      = .error (.resolutionError "/a") :=
  (resolution_error_on_miss 1 envTrivial (NewInitContext (some []) "/")
    "/a" "/a" [] rfl rfl rfl rfl).1

/-- C8: two `Open` calls from the same directory whose specifiers
resolve to the same canonical path return identical content; the
loader runs exactly once — on the first call — and the second call is
served from the FileCache without changing the state at all. -/
theorem open_loads_once (env : Env) (st₀ : InitContext)
    (n₁ n₂ fn c : String) (st₁ : InitContext)
    (hres₁ : env.resolve st₀.pwd n₁ = fn)
    (hres₂ : env.resolve st₀.pwd n₂ = fn)
    (hmiss : lookupA st₀.files fn = none)
    (h₁ : Open env st₀ n₁ = (.ok c, st₁)) :
    Open env st₁ n₂ = (.ok c, st₁)
    ∧ countFor st₁.loadCount fn = countFor st₀.loadCount fn + 1 := by
  rw [Open] at h₁
  rw [hres₁, hmiss] at h₁
  cases hL : loaderLoad env st₀.fs st₀.pwd n₁ with
  | error e => rw [hL] at h₁; exact absurd h₁ (by simp)
  | ok data =>
    rw [hL] at h₁
    have hc : data.Data = c := congrArg Prod.fst h₁ |> Except.ok.inj
    have hst : st₁
        = { st₀ with
            loadCount := bump st₀.loadCount fn,
            files := insertA st₀.files fn data.Data } := by
      have := congrArg Prod.snd h₁
      exact this.symm
    constructor
    · rw [Open]
      have hpwd : st₁.pwd = st₀.pwd := by rw [hst]
      rw [hpwd, hres₂]
      have hhit : lookupA st₁.files fn = some c := by
        rw [hst]
        show lookupA (insertA st₀.files fn data.Data) fn = some c
        rw [lookupA_insertA_self, hc]
      rw [hhit]
    · rw [hst]
      show countFor (bump st₀.loadCount fn) fn = countFor st₀.loadCount fn + 1
      exact countFor_bump_self _ _

/-- The state after a first `Open` of `/a.txt` over a one-file
filesystem: raw content cached, loader counted once. -/
def stOpened : InitContext :=
  { fs := some [("/a.txt", "HELLO")], pwd := "/",
    programs := [], files := [("/a.txt", "HELLO")],
    console := 0, globals := [], heap := [], nextObj := 0,
    loadCount := [("/a.txt", 1)], transformCount := [], compileCount := [] }

/-- Witness for C8: two opens of the same file; the second is a pure
cache hit. -/
theorem open_loads_once_witness :
    Open envTrivial stOpened "/a.txt" = (.ok "HELLO", stOpened) :=
  (open_loads_once envTrivial
    (NewInitContext (some [("/a.txt", "HELLO")]) "/")
    "/a.txt" "/a.txt" "/a.txt" "HELLO" stOpened rfl rfl rfl rfl).1

/-- C9: a replicated (bound) context shares the base's program cache,
file cache and console and copies its `pwd`, but carries no
filesystem; hence any `Require` whose canonical path misses the shared
ModuleCache, and any `Open` whose canonical path misses the shared
FileCache, fails — only cache hits can succeed. -/
theorem bound_context_only_cache_hits (base : InitContext) :
    (newBoundInitContext base).fs = none
    ∧ (newBoundInitContext base).programs = base.programs
    ∧ (newBoundInitContext base).files = base.files
    ∧ (newBoundInitContext base).console = base.console
    ∧ (newBoundInitContext base).pwd = base.pwd
    ∧ (∀ fuel env name,
        lookupA (newBoundInitContext base).programs
          (env.resolve base.pwd name) = none →
        ∃ e, (requireFile fuel env name (newBoundInitContext base)).1
          = .error e)
    ∧ (∀ env name,
        lookupA (newBoundInitContext base).files
          (env.resolve base.pwd name) = none →
        (Open env (newBoundInitContext base) name).1
            = .error (.loadError (env.resolve base.pwd name))
          ∧ (Open env (newBoundInitContext base) name).2.files
            = (newBoundInitContext base).files) := by
  refine ⟨rfl, rfl, rfl, rfl, rfl, ?_, ?_⟩
  · intro fuel env name hm
    match fuel with
    | 0 => exact ⟨fuelErr, rfl⟩
    | 1 => exact ⟨fuelErr, rfl⟩
    | (g + 2) =>
      refine ⟨.loadError (env.resolve base.pwd name), ?_⟩
      exact (requireFile_pipeline_err g env name (newBoundInitContext base)
        _ hm rfl).1
  · intro env name hm
    have hm' : lookupA (newBoundInitContext base).files
        (env.resolve (newBoundInitContext base).pwd name) = none := hm
    have hL : loaderLoad env (newBoundInitContext base).fs
        (newBoundInitContext base).pwd name
        = .error (.loadError (env.resolve (newBoundInitContext base).pwd name))
      := rfl
    simp [Open, hm', hL]
    rfl

/-- Witness for C9 at a concrete base context. -/
theorem bound_context_only_cache_hits_witness :
    ∃ e, (requireFile 5 envTrivial "/a"
      (newBoundInitContext (NewInitContext (some [("/a", "A")]) "/"))).1
        = .error e :=
  (bound_context_only_cache_hits
    (NewInitContext (some [("/a", "A")]) "/")).2.2.2.2.2.1
    5 envTrivial "/a" rfl

/-! ### Preservation of a cached module across arbitrary execution -/

/-- Between two states, the ModuleCache entry of a canonical path and
its three collaborator-invocation counters are unchanged. -/
def cachedInv (fn : String) (st st' : InitContext) : Prop :=
  lookupA st'.programs fn = lookupA st.programs fn
  ∧ countFor st'.loadCount fn = countFor st.loadCount fn
  ∧ countFor st'.transformCount fn = countFor st.transformCount fn
  ∧ countFor st'.compileCount fn = countFor st.compileCount fn

theorem cachedInv_refl (fn : String) (st : InitContext) :
    cachedInv fn st st := ⟨rfl, rfl, rfl, rfl⟩

theorem cachedInv_trans {fn : String} {a b c : InitContext}
    (h1 : cachedInv fn a b) (h2 : cachedInv fn b c) : cachedInv fn a c :=
  ⟨h2.1.trans h1.1, h2.2.1.trans h1.2.1, h2.2.2.1.trans h1.2.2.1,
   h2.2.2.2.trans h1.2.2.2⟩

theorem setGlobal_cachedInv (fn : String) (st : InitContext) (k : String)
    (v : Value) : cachedInv fn st (setGlobal st k v) := ⟨rfl, rfl, rfl, rfl⟩

theorem setField_cachedInv (fn : String) (st : InitContext) (oid : Nat)
    (f : String) (v : Value) : cachedInv fn st (setField st oid f v) :=
  ⟨rfl, rfl, rfl, rfl⟩

theorem requireModule_cachedInv (fn : String) (env : Env) (name : String)
    (st : InitContext) : cachedInv fn st (requireModule env name st).2 := by
  cases hc : env.builtins.contains name with
  | true => rw [requireModule, hc]; exact ⟨rfl, rfl, rfl, rfl⟩
  | false => rw [requireModule, hc]; exact ⟨rfl, rfl, rfl, rfl⟩

/-- The master preservation theorem: once a canonical path is present
in the ModuleCache, no interpreter step — expression evaluation,
statement execution, program execution, or a nested `requireFile` —
changes its cache entry or invokes the loader, the transformer or the
compiler for it again. -/
theorem interp_cachedInv (env : Env) (fn : String) : ∀ fuel : Nat,
    (∀ e st, (lookupA st.programs fn).isSome →
        cachedInv fn st (evalExpr fuel env e st).2)
    ∧ (∀ s st, (lookupA st.programs fn).isSome →
        cachedInv fn st (execStmt fuel env s st).2)
    ∧ (∀ l st, (lookupA st.programs fn).isSome →
        cachedInv fn st (execStmts fuel env l st).2)
    ∧ (∀ pgm mid st, (lookupA st.programs fn).isSome →
        cachedInv fn st (executeCached fuel env pgm mid st).2)
    ∧ (∀ pwd name mid st, (lookupA st.programs fn).isSome →
        cachedInv fn st
          (moduleBody fuel env (env.resolve pwd name) pwd name mid st).2)
    ∧ (∀ name st, (lookupA st.programs fn).isSome →
        cachedInv fn st (requireFile fuel env name st).2) := by
  intro fuel
  induction fuel with
  | zero =>
    exact ⟨fun _ _ _ => cachedInv_refl _ _, fun _ _ _ => cachedInv_refl _ _,
      fun _ _ _ => cachedInv_refl _ _, fun _ _ _ _ => cachedInv_refl _ _,
      fun _ _ _ _ _ => cachedInv_refl _ _, fun _ _ _ => cachedInv_refl _ _⟩
  | succ f ih =>
    obtain ⟨ihE, ihS, ihSS, ihEC, ihMB, ihRF⟩ := ih
    have hE : ∀ e st, (lookupA st.programs fn).isSome →
        cachedInv fn st (evalExpr (f + 1) env e st).2 := by
      intro e st hmem
      cases e with
      | lit n => exact cachedInv_refl _ _
      | globalE k => exact cachedInv_refl _ _
      | field e1 fld =>
        rcases hv : evalExpr f env e1 st with ⟨r, st1⟩
        have h1 := ihE e1 st hmem
        rw [hv] at h1
        simp only [evalExpr, hv]
        cases r with
        | error err => exact h1
        | ok v => cases v <;> exact h1
      | req spec =>
        simp only [evalExpr]
        by_cases hb : spec = "k6" ∨ "k6/".data.isPrefixOf spec.data
        · rw [if_pos hb]
          exact requireModule_cachedInv fn env spec st
        · rw [if_neg hb]
          exact ihRF spec st hmem
      | add e1 e2 =>
        rcases hv1 : evalExpr f env e1 st with ⟨r1, st1⟩
        have h1 := ihE e1 st hmem
        rw [hv1] at h1
        simp only [evalExpr, hv1]
        cases r1 with
        | error err => exact h1
        | ok v1 =>
          have hmem1 : (lookupA st1.programs fn).isSome := by
            rw [h1.1]; exact hmem
          rcases hv2 : evalExpr f env e2 st1 with ⟨r2, st2⟩
          have h2 := ihE e2 st1 hmem1
          rw [hv2] at h2
          simp only [hv2]
          have h12 := cachedInv_trans h1 h2
          cases r2 with
          | error err => exact h12
          | ok v2 => cases v1 <;> cases v2 <;> exact h12
    have hS : ∀ s st, (lookupA st.programs fn).isSome →
        cachedInv fn st (execStmt (f + 1) env s st).2 := by
      intro s st hmem
      cases s with
      | assignGlobal k e =>
        rcases hv : evalExpr f env e st with ⟨r, st1⟩
        have h1 := ihE e st hmem
        rw [hv] at h1
        simp only [execStmt, hv]
        cases r with
        | error err => exact h1
        | ok v => exact cachedInv_trans h1 (setGlobal_cachedInv fn st1 k v)
      | assignField e1 fld e2 =>
        rcases hv1 : evalExpr f env e1 st with ⟨r1, st1⟩
        have h1 := ihE e1 st hmem
        rw [hv1] at h1
        simp only [execStmt, hv1]
        cases r1 with
        | error err => exact h1
        | ok v1 =>
          cases v1 with
          | obj oid =>
            have hmem1 : (lookupA st1.programs fn).isSome := by
              rw [h1.1]; exact hmem
            rcases hv2 : evalExpr f env e2 st1 with ⟨r2, st2⟩
            have h2 := ihE e2 st1 hmem1
            rw [hv2] at h2
            simp only [hv2]
            have h12 := cachedInv_trans h1 h2
            cases r2 with
            | error err => exact h12
            | ok v2 =>
              exact cachedInv_trans h12 (setField_cachedInv fn st2 oid fld v2)
          | undefined => exact h1
          | vint n => exact h1
          | vstr s => exact h1
          | builtin b => exact h1
      | incField e1 fld =>
        rcases hv1 : evalExpr f env e1 st with ⟨r1, st1⟩
        have h1 := ihE e1 st hmem
        rw [hv1] at h1
        cases r1 with
        | error err => simp only [execStmt, hv1]; exact h1
        | ok v1 =>
          cases v1 with
          | obj oid =>
            cases hg : getField st1 oid fld with
            | vint n =>
              simp only [execStmt, hv1, hg]
              exact cachedInv_trans h1
                (setField_cachedInv fn st1 oid fld (.vint (n + 1)))
            | undefined => simp only [execStmt, hv1, hg]; exact h1
            | vstr s => simp only [execStmt, hv1, hg]; exact h1
            | obj o => simp only [execStmt, hv1, hg]; exact h1
            | builtin b => simp only [execStmt, hv1, hg]; exact h1
          | undefined => simp only [execStmt, hv1]; exact h1
          | vint n => simp only [execStmt, hv1]; exact h1
          | vstr s => simp only [execStmt, hv1]; exact h1
          | builtin b => simp only [execStmt, hv1]; exact h1
      | exprS e =>
        rcases hv : evalExpr f env e st with ⟨r, st1⟩
        have h1 := ihE e st hmem
        rw [hv] at h1
        simp only [execStmt, hv]
        cases r with
        | error err => exact h1
        | ok v => exact h1
      | throwS msg => exact cachedInv_refl _ _
    have hSS : ∀ l st, (lookupA st.programs fn).isSome →
        cachedInv fn st (execStmts (f + 1) env l st).2 := by
      intro l st hmem
      cases l with
      | nil => exact cachedInv_refl _ _
      | cons s rest =>
        rcases hv : execStmt f env s st with ⟨r, st1⟩
        have h1 := ihS s st hmem
        rw [hv] at h1
        simp only [execStmts, hv]
        cases r with
        | error err => exact h1
        | ok u =>
          have hmem1 : (lookupA st1.programs fn).isSome := by
            rw [h1.1]; exact hmem
          exact cachedInv_trans h1 (ihSS rest st1 hmem1)
    have hEC : ∀ pgm mid st, (lookupA st.programs fn).isSome →
        cachedInv fn st (executeCached (f + 1) env pgm mid st).2 := by
      intro pgm mid st hmem
      rcases hv : execStmts f env pgm.pgm st with ⟨r, st1⟩
      have h1 := ihSS pgm.pgm st hmem
      rw [hv] at h1
      simp only [executeCached, hv]
      cases r with
      | error err => exact h1
      | ok u => exact h1
    have hMB : ∀ pwd name mid st, (lookupA st.programs fn).isSome →
        cachedInv fn st
          (moduleBody (f + 1) env (env.resolve pwd name) pwd name mid st).2
        := by
      intro pwd name mid st hmem
      cases hlk : lookupA st.programs (env.resolve pwd name) with
      | some pgm =>
        rw [moduleBody_hit f env (env.resolve pwd name) pwd name mid st
          pgm hlk]
        exact ihEC pgm mid st hmem
      | none =>
        have hne : env.resolve pwd name ≠ fn := by
          intro hcontra
          rw [hcontra] at hlk
          rw [hlk] at hmem
          exact absurd hmem (by simp)
        rcases hp : compilePipeline env st pwd name with ⟨rp, stp⟩
        have hfrm := compilePipeline_frame env st pwd name
        have hcnt := compilePipeline_counts_ne env st pwd name fn hne
        rw [hp] at hfrm hcnt
        have hInvP : cachedInv fn st stp := by
          refine ⟨?_, hcnt.1, hcnt.2.1, hcnt.2.2⟩
          rw [show stp.programs = st.programs from hfrm.1]
        cases rp with
        | error e =>
          rw [moduleBody_miss_err f env (env.resolve pwd name) pwd name
            mid st e stp hlk hp]
          exact hInvP
        | ok pgm =>
          rw [moduleBody_miss_ok f env (env.resolve pwd name) pwd name
            mid st pgm stp hlk hp]
          have hInvIns : cachedInv fn st
              { stp with programs :=
                  insertA stp.programs (env.resolve pwd name) pgm } := by
            refine ⟨?_, hInvP.2.1, hInvP.2.2.1, hInvP.2.2.2⟩
            show lookupA (insertA stp.programs (env.resolve pwd name) pgm) fn
              = lookupA st.programs fn
            rw [lookupA_insertA_ne _ _ _ _ hne]
            exact hInvP.1
          have hmemIns : (lookupA
              { stp with programs :=
                  insertA stp.programs (env.resolve pwd name) pgm }.programs
              fn).isSome := by
            rw [hInvIns.1]; exact hmem
          exact cachedInv_trans hInvIns (ihEC pgm mid _ hmemIns)
    have hRF : ∀ name st, (lookupA st.programs fn).isSome →
        cachedInv fn st (requireFile (f + 1) env name st).2 := by
      intro name st hmem
      rw [requireFile_succ]
      have hInvE : cachedInv fn st
          (enterModuleScope
            { st with pwd := env.dir (env.resolve st.pwd name) }).2.2 := by
        refine ⟨?_, ?_, ?_, ?_⟩
        · rw [enterModuleScope_programs]
        · rw [enterModuleScope_loadCount]
        · rw [enterModuleScope_transformCount]
        · rw [enterModuleScope_compileCount]
      have hmemE : (lookupA
          (enterModuleScope
            { st with pwd := env.dir (env.resolve st.pwd name) }).2.2.programs
          fn).isSome := by
        rw [hInvE.1]; exact hmem
      have hBody := ihMB st.pwd name
        (enterModuleScope
          { st with pwd := env.dir (env.resolve st.pwd name) }).2.1
        (enterModuleScope
          { st with pwd := env.dir (env.resolve st.pwd name) }).2.2
        hmemE
      have hRest : cachedInv fn
          (moduleBody f env (env.resolve st.pwd name) st.pwd name
            (enterModuleScope
              { st with pwd := env.dir (env.resolve st.pwd name) }).2.1
            (enterModuleScope
              { st with pwd := env.dir (env.resolve st.pwd name) }).2.2).2
          (restoreScope
            (moduleBody f env (env.resolve st.pwd name) st.pwd name
              (enterModuleScope
                { st with pwd := env.dir (env.resolve st.pwd name) }).2.1
              (enterModuleScope
                { st with pwd := env.dir (env.resolve st.pwd name) }).2.2).2
            st.pwd (getGlobal st "exports") (getGlobal st "module")) :=
        ⟨rfl, rfl, rfl, rfl⟩
      exact cachedInv_trans (cachedInv_trans hInvE hBody) hRest
    exact ⟨hE, hS, hSS, hEC, hMB, hRF⟩

/-- A successful cache-miss `moduleBody` runs the pipeline exactly once
for the canonical path and leaves it cached, whatever the executed
module code does. -/
theorem moduleBody_miss_counts (g : Nat) (env : Env) (pwd name : String)
    (mid : Nat) (st2 : InitContext) (fn : String) (v : Value)
    (hres : env.resolve pwd name = fn)
    (hmiss : lookupA st2.programs fn = none)
    (hok : (moduleBody (g + 1) env fn pwd name mid st2).1 = .ok v) :
    countFor (moduleBody (g + 1) env fn pwd name mid st2).2.loadCount fn
      = countFor st2.loadCount fn + 1
    ∧ countFor (moduleBody (g + 1) env fn pwd name mid st2).2.transformCount fn
      = countFor st2.transformCount fn + 1
    ∧ countFor (moduleBody (g + 1) env fn pwd name mid st2).2.compileCount fn
      = countFor st2.compileCount fn + 1
    ∧ (lookupA (moduleBody (g + 1) env fn pwd name mid st2).2.programs
        fn).isSome := by
  rcases hp : compilePipeline env st2 pwd name with ⟨rp, stp⟩
  cases rp with
  | error e =>
    rw [moduleBody_miss_err g env fn pwd name mid st2 e stp hmiss hp] at hok ⊢
    exact absurd hok (by simp)
  | ok pgm =>
    rw [moduleBody_miss_ok g env fn pwd name mid st2 pgm stp hmiss hp] at hok ⊢
    have hcnt := compilePipeline_counts_ok env st2 pwd name pgm stp hp
    rw [hres] at hcnt
    have hmemIns : (lookupA
        ({ stp with programs := insertA stp.programs fn pgm } :
          InitContext).programs fn).isSome := by
      show (lookupA (insertA stp.programs fn pgm) fn).isSome
      rw [lookupA_insertA_self]
      rfl
    have hInv := (interp_cachedInv env fn g).2.2.2.1 pgm mid
      { stp with programs := insertA stp.programs fn pgm } hmemIns
    refine ⟨?_, ?_, ?_, ?_⟩
    · rw [hInv.2.1]
      show countFor stp.loadCount fn = countFor st2.loadCount fn + 1
      exact hcnt.1
    · rw [hInv.2.2.1]
      show countFor stp.transformCount fn = countFor st2.transformCount fn + 1
      exact hcnt.2.1
    · rw [hInv.2.2.2]
      show countFor stp.compileCount fn = countFor st2.compileCount fn + 1
      exact hcnt.2.2
    · rw [hInv.1]
      exact hmemIns

/-- C1: when two `requireFile` calls resolve to the same canonical
path, the load/transform/compile pipeline runs exactly once, on the
first (successful) call — each collaborator's counter for that path
rises by exactly one, even across the nested requires the module's own
execution performs — and the path is left in the ModuleCache; the
second call (and anything it executes) finds that entry, reuses it
unchanged, and never invokes the loader, the transformer or the
compiler for the path again. -/
theorem require_compiles_once (fuel₁ fuel₂ : Nat) (env : Env)
    (n₁ n₂ : String) (st₀ st₁ : InitContext) (fn : String) (v₁ : Value)
    (hres₁ : env.resolve st₀.pwd n₁ = fn)
    (hmiss : lookupA st₀.programs fn = none)
    (hcall₁ : requireFile (fuel₁ + 1) env n₁ st₀ = (.ok v₁, st₁))
    (hres₂ : env.resolve st₁.pwd n₂ = fn) :
    (countFor st₁.loadCount fn = countFor st₀.loadCount fn + 1
      ∧ countFor st₁.transformCount fn = countFor st₀.transformCount fn + 1
      ∧ countFor st₁.compileCount fn = countFor st₀.compileCount fn + 1)
    ∧ (lookupA st₁.programs fn).isSome
    ∧ (countFor (requireFile fuel₂ env n₂ st₁).2.loadCount fn
        = countFor st₁.loadCount fn
      ∧ countFor (requireFile fuel₂ env n₂ st₁).2.transformCount fn
        = countFor st₁.transformCount fn
      ∧ countFor (requireFile fuel₂ env n₂ st₁).2.compileCount fn
        = countFor st₁.compileCount fn
      ∧ lookupA (requireFile fuel₂ env n₂ st₁).2.programs fn
        = lookupA st₁.programs fn) := by
  rw [requireFile_succ, Prod.mk.injEq] at hcall₁
  obtain ⟨hr, hst₁⟩ := hcall₁
  rw [hres₁] at hr hst₁
  cases fuel₁ with
  | zero => exact absurd hr (by simp [moduleBody])
  | succ g =>
    have hmiss2 : lookupA
        (enterModuleScope
          { st₀ with pwd := env.dir fn }).2.2.programs fn = none := by
      rw [enterModuleScope_programs]
      exact hmiss
    have hmb := moduleBody_miss_counts g env st₀.pwd n₁
      (enterModuleScope { st₀ with pwd := env.dir fn }).2.1
      (enterModuleScope { st₀ with pwd := env.dir fn }).2.2
      fn v₁ hres₁ hmiss2 hr
    have hfirst :
        countFor st₁.loadCount fn = countFor st₀.loadCount fn + 1
        ∧ countFor st₁.transformCount fn
            = countFor st₀.transformCount fn + 1
        ∧ countFor st₁.compileCount fn = countFor st₀.compileCount fn + 1
        ∧ (lookupA st₁.programs fn).isSome := by
      rw [← hst₁]
      refine ⟨?_, ?_, ?_, ?_⟩
      · rw [restoreScope_loadCount, hmb.1, enterModuleScope_loadCount]
      · rw [restoreScope_transformCount, hmb.2.1,
          enterModuleScope_transformCount]
      · rw [restoreScope_compileCount, hmb.2.2.1,
          enterModuleScope_compileCount]
      · rw [restoreScope_programs]
        exact hmb.2.2.2
    have hsecond := (interp_cachedInv env fn fuel₂).2.2.2.2.2 n₂ st₁
      hfirst.2.2.2
    exact ⟨⟨hfirst.1, hfirst.2.1, hfirst.2.2.1⟩, hfirst.2.2.2,
      hsecond.2.1, hsecond.2.2.1, hsecond.2.2.2, hsecond.1⟩

/-- The state after a first successful `requireFile` of `/a` over a
one-file filesystem, compiled to the empty program. -/
def stRequired : InitContext :=
  { fs := some [("/a", "A")], pwd := "/",
    programs := [("/a", { pgm := [], src := "A" })],
    files := [], console := 0,
    globals := [("module", Value.undefined), ("exports", Value.undefined),
                ("module", Value.obj 1), ("exports", Value.obj 0)],
    heap := [(1, [("exports", Value.obj 0)]), (1, []), (0, [])],
    nextObj := 2,
    loadCount := [("/a", 1)], transformCount := [("/a", 1)],
    compileCount := [("/a", 1)] }

/-- The C1 witness scenario's state after the module scope swap. -/
def stWScoped : InitContext :=
  { fs := some [("/a", "A")], pwd := "/",
    programs := [], files := [], console := 0,
    globals := [("module", Value.obj 1), ("exports", Value.obj 0)],
    heap := [(1, [("exports", Value.obj 0)]), (1, []), (0, [])],
    nextObj := 2,
    loadCount := [], transformCount := [], compileCount := [] }

/-- The C1 witness scenario's state after the pipeline ran. -/
def stWPiped : InitContext :=
  { stWScoped with
    loadCount := [("/a", 1)], transformCount := [("/a", 1)],
    compileCount := [("/a", 1)] }

/-- The C1 witness scenario's state after caching `/a`. -/
def stWCached : InitContext :=
  { stWPiped with programs := [("/a", { pgm := [], src := "A" })] }

theorem wit_exec :
    executeCached 2 envTrivial { pgm := [], src := "A" } 1 stWCached
      = (.ok (.obj 0), stWCached) := by
  have hg : getField stWCached 1 "exports" = .obj 0 := rfl
  simp only [executeCached, execStmts, hg]

theorem wit_pipe :
    compilePipeline envTrivial stWScoped "/" "/a"
      = (.ok { pgm := [], src := "A" }, stWPiped) := rfl

theorem wit_body :
    moduleBody 3 envTrivial "/a" "/" "/a" 1 stWScoped
      = (.ok (.obj 0), stWCached) := by
  have hlk : lookupA stWScoped.programs "/a" = none := rfl
  have hins : ({ stWPiped with
      programs := insertA stWPiped.programs "/a" { pgm := [], src := "A" } }
      : InitContext) = stWCached := rfl
  simp only [moduleBody, hlk, wit_pipe, hins, wit_exec]

theorem wit_call :
    requireFile 4 envTrivial "/a" (NewInitContext (some [("/a", "A")]) "/")
      = (.ok (.obj 0), stRequired) := by
  have h0 : (NewInitContext (some [("/a", "A")]) "/").pwd = "/" := rfl
  have h1 : envTrivial.resolve "/" "/a" = "/a" := rfl
  have h2 : envTrivial.dir "/a" = "/" := rfl
  have h3 : ({ NewInitContext (some [("/a", "A")]) "/" with pwd := "/" }
      : InitContext) = NewInitContext (some [("/a", "A")]) "/" := rfl
  have hems : enterModuleScope (NewInitContext (some [("/a", "A")]) "/")
      = (0, 1, stWScoped) := rfl
  have h4 : getGlobal (NewInitContext (some [("/a", "A")]) "/") "exports"
      = .undefined := rfl
  have h5 : getGlobal (NewInitContext (some [("/a", "A")]) "/") "module"
      = .undefined := rfl
  have h6 : restoreScope stWCached "/" .undefined .undefined = stRequired := rfl
  simp only [requireFile, h0, h1, h2, h3, hems, wit_body, h4, h5, h6]

/-- Witness for C1 at a concrete two-call scenario. -/
theorem require_compiles_once_witness :
    countFor stRequired.loadCount "/a"
      = countFor (NewInitContext (some [("/a", "A")]) "/").loadCount "/a" + 1
    ∧ countFor (requireFile 5 envTrivial "/a" stRequired).2.compileCount "/a"
      = countFor stRequired.compileCount "/a" :=
  ⟨(require_compiles_once 3 5 envTrivial "/a" "/a"
      (NewInitContext (some [("/a", "A")]) "/") stRequired "/a" (.obj 0)
      rfl rfl wit_call rfl).1.1,
   (require_compiles_once 3 5 envTrivial "/a" "/a"
      (NewInitContext (some [("/a", "A")]) "/") stRequired "/a" (.obj 0)
      rfl rfl wit_call rfl).2.2.2.2.1⟩

end K6Init
